import Mathlib

/-!
Shallow embedding of the orchestration core of the `all-social-media-api`
library (TypeScript): the cross-posting orchestrator (`SocialPostingClient`),
the retry policy (`withRetries` / `isRetryableError` from `src/lib/request.ts`),
the Instagram and Threads two-phase publish state machines, the Meta ad
provisioning pipeline, the reply batch processor, and post deletion.

Modelling conventions:
- JavaScript exceptions are modelled with `Except SErr`; `SErr` mirrors the
  fields of `SocialPostingError` (message / code / details) plus a `social`
  flag for the `instanceof SocialPostingError` test.
- Network calls are modelled by oracle parameters: each vendor HTTP
  interaction is a value (or indexed family) of type `Except SErr _`
  supplied by the caller of the embedded function, carrying the parsed
  fields of the vendor response that the source code inspects.
- JavaScript string truthiness (`undefined` and `""` are falsy) is the
  `truthy` predicate on `Option String`.
- Wall-clock aspects (fixed retry delay, the 2s poll interval, the 30s poll
  deadline) are not represented; the poll deadline becomes a `pollBudget`
  fuel argument counting how many times `Date.now() < deadline` is true.
-/

namespace SocialApi

/-- JavaScript truthiness for an optional string: `undefined`/absent and the
empty string are falsy, every other string is truthy. -/
def truthy : Option String → Bool
  | none => false
  | some s => !(s == "")

/-- Removal of leading whitespace characters. -/
def dropWs : List Char → List Char
  | [] => []
  | c :: cs => if c.isWhitespace then dropWs cs else c :: cs

/-- Model of `String.prototype.trim`: removes whitespace from both ends. -/
def jsTrim (s : String) : String := String.mk (dropWs ((dropWs s.data.reverse).reverse))

/-- Shallow model of a thrown JavaScript error. `social` records whether the
value is an `instanceof SocialPostingError`; `code` and `details` are the
optional fields of `SocialPostingError` from `src/lib/request.ts`. -/
structure SErr where
  message : String
  code : Option String := none
  details : Option String := none
  social : Bool := true
  deriving Repr, DecidableEq

/-- Word character in the sense of the JavaScript regex `\w` / `\b`:
ASCII letter, digit or underscore. -/
def isWordChar (c : Char) : Bool := c.isAlpha || c.isDigit || c == '_'

/-- Scanner for the regex `\b(429|5\d{2})\b` of `isRetryableError`:
looks for "429" or "5" followed by two digits, delimited by word
boundaries. `prev` is the character preceding the scan position. -/
def statusTokenScan : Option Char → List Char → Bool
  | prev, c1 :: c2 :: c3 :: rest =>
    let tok := (c1 == '4' && c2 == '2' && c3 == '9') ||
               (c1 == '5' && c2.isDigit && c3.isDigit)
    let beforeOk := match prev with
      | none => true
      | some p => !isWordChar p
    let afterOk := match rest with
      | [] => true
      | d :: _ => !isWordChar d
    if tok && beforeOk && afterOk then true
    else statusTokenScan (some c1) (c2 :: c3 :: rest)
  | _, c :: rest => statusTokenScan (some c) rest
  | _, [] => false

/-- Test of the regex `\b(429|5\d{2})\b` against a string. -/
def hasStatusToken (s : String) : Bool := statusTokenScan none s.data

/-- Checks whether `pat` is a leading segment of `l`. -/
def listHasPre : List Char → List Char → Bool
  | [], _ => true
  | _ :: _, [] => false
  | p :: ps, c :: cs => p == c && listHasPre ps cs

/-- Checks whether `pat` occurs contiguously anywhere inside `l`. -/
def listHasSub (pat : List Char) : List Char → Bool
  | [] => listHasPre pat []
  | c :: cs => listHasPre pat (c :: cs) || listHasSub pat cs

/-- Test of the case-insensitive regex `/timeout|ECONNRESET|ETIMEDOUT|ENOTFOUND/i`
from `isRetryableError`. -/
def hasRetryKeyword (msg : String) : Bool :=
  let m := msg.data.map Char.toLower
  listHasSub "timeout".data m || listHasSub "econnreset".data m ||
  listHasSub "etimedout".data m || listHasSub "enotfound".data m

/-- Embedding of `isRetryableError` (src/lib/request.ts lines 91-102): an error
is transient when it is a `SocialPostingError` with code `NETWORK_ERROR`, or
one with code `API_ERROR` whose (truthy) details contain a rate-limit or
server-fault status token, or any error whose message mentions a timeout or
connection failure. -/
def isRetryableError (e : SErr) : Bool :=
  (e.social &&
    (e.code == some "NETWORK_ERROR" ||
      (e.code == some "API_ERROR" && truthy e.details &&
        (match e.details with
          | some d => hasStatusToken d
          | none => false)))) ||
  hasRetryKeyword e.message

/-- Embedding of the attempt loop of `withRetries` (src/lib/request.ts lines
114-126). `attempt` is the 1-based attempt counter; `remaining` is the number
of retries still allowed (`retries + 1 - attempt` in the source loop, so the
source guard `attempt <= retries` is `remaining > 0` here). The fixed delay
before each retry is a wall-clock effect and is not represented. -/
def retryLoop (fn : Nat → Except SErr α) : Nat → Nat → Except SErr (α × Nat)
  | attempt, remaining =>
    match fn attempt with
    | .ok a => .ok (a, attempt)
    | .error e =>
      match remaining with
      | 0 => .error e
      | r + 1 =>
        if isRetryableError e then retryLoop fn (attempt + 1) r
        else .error e

/-- Embedding of `withRetries` (src/lib/request.ts lines 107-128): runs `fn`
starting at attempt 1 with up to `retries` additional attempts, returning the
result paired with the 1-based attempt number that succeeded. `fn n` is the
outcome of the n-th invocation of the wrapped operation. -/
def withRetries (fn : Nat → Except SErr α) (retries : Nat) : Except SErr (α × Nat) :=
  retryLoop fn 1 retries

lemma retryLoop_ok_char (fn : Nat → Except SErr α) :
    ∀ remaining attempt a k, retryLoop fn attempt remaining = .ok (a, k) →
      attempt ≤ k ∧ k ≤ attempt + remaining ∧ fn k = .ok a ∧
      (∀ j, attempt ≤ j → j < k → ∃ e, fn j = .error e ∧ isRetryableError e = true) := by
  intro remaining
  induction remaining with
  | zero =>
    intro attempt a k h
    rw [retryLoop] at h
    cases hfn : fn attempt with
    | ok v =>
      rw [hfn] at h
      simp only [Except.ok.injEq, Prod.mk.injEq] at h
      obtain ⟨rfl, rfl⟩ := h
      refine ⟨le_refl _, by omega, hfn, ?_⟩
      intro j h1 h2; omega
    | error e => rw [hfn] at h; simp at h
  | succ r ih =>
    intro attempt a k h
    rw [retryLoop] at h
    cases hfn : fn attempt with
    | ok v =>
      rw [hfn] at h
      simp only [Except.ok.injEq, Prod.mk.injEq] at h
      obtain ⟨rfl, rfl⟩ := h
      refine ⟨le_refl _, by omega, hfn, ?_⟩
      intro j h1 h2; omega
    | error e =>
      rw [hfn] at h
      simp only at h
      by_cases hr : isRetryableError e = true
      · rw [if_pos hr] at h
        obtain ⟨h1, h2, h3, h4⟩ := ih (attempt + 1) a k h
        refine ⟨by omega, by omega, h3, ?_⟩
        intro j hj1 hj2
        rcases Nat.lt_or_ge j (attempt + 1) with hj | hj
        · have : j = attempt := by omega
          subst this
          exact ⟨e, hfn, hr⟩
        · exact h4 j hj hj2
      · rw [if_neg hr] at h
        simp at h

lemma retryLoop_error_char (fn : Nat → Except SErr α) :
    ∀ remaining attempt e, retryLoop fn attempt remaining = .error e →
      ∃ k, attempt ≤ k ∧ k ≤ attempt + remaining ∧ fn k = .error e ∧
        (isRetryableError e = false ∨ k = attempt + remaining) ∧
        (∀ j, attempt ≤ j → j < k → ∃ e2, fn j = .error e2 ∧ isRetryableError e2 = true) := by
  intro remaining
  induction remaining with
  | zero =>
    intro attempt e h
    rw [retryLoop] at h
    cases hfn : fn attempt with
    | ok v => rw [hfn] at h; simp at h
    | error e2 =>
      rw [hfn] at h
      simp only [Except.error.injEq] at h
      subst h
      exact ⟨attempt, le_refl _, by omega, hfn, Or.inr (by omega), by intro j h1 h2; omega⟩
  | succ r ih =>
    intro attempt e h
    rw [retryLoop] at h
    cases hfn : fn attempt with
    | ok v => rw [hfn] at h; simp at h
    | error e2 =>
      rw [hfn] at h
      simp only at h
      by_cases hr : isRetryableError e2 = true
      · rw [if_pos hr] at h
        obtain ⟨k, h1, h2, h3, h4, h5⟩ := ih (attempt + 1) e h
        refine ⟨k, by omega, by omega, h3, h4.imp id (fun hk => by omega), ?_⟩
        intro j hj1 hj2
        rcases Nat.lt_or_ge j (attempt + 1) with hj | hj
        · have : j = attempt := by omega
          subst this
          exact ⟨e2, hfn, hr⟩
        · exact h5 j hj hj2
      · rw [if_neg hr] at h
        simp only [Except.error.injEq] at h
        subst h
        refine ⟨attempt, le_refl _, by omega, hfn, Or.inl (by simpa using hr), ?_⟩
        intro j h1 h2; omega

lemma retryLoop_congr (fn g : Nat → Except SErr α) :
    ∀ remaining attempt, (∀ j, attempt ≤ j → j ≤ attempt + remaining → fn j = g j) →
      retryLoop fn attempt remaining = retryLoop g attempt remaining := by
  intro remaining
  induction remaining with
  | zero =>
    intro attempt hagree
    rw [retryLoop, retryLoop, hagree attempt (le_refl _) (by omega)]
  | succ r ih =>
    intro attempt hagree
    rw [retryLoop, retryLoop, hagree attempt (le_refl _) (by omega)]
    cases g attempt with
    | ok v => rfl
    | error e =>
      simp only
      by_cases hr : isRetryableError e = true
      · rw [if_pos hr, if_pos hr]
        exact ih (attempt + 1) (fun j h1 h2 => hagree j (by omega) (by omega))
      · rw [if_neg hr, if_neg hr]

lemma retryLoop_transient_first (fn : Nat → Except SErr α) (n : Nat) (e : SErr)
    (h1 : fn 1 = .error e) (h2 : isRetryableError e = true) :
    retryLoop fn 1 (n + 1) = retryLoop fn 2 n := by
  rw [retryLoop, h1]
  simp only
  rw [if_pos h2]

/-! ## Content preparation: hashtags and sanitization (src/utils.ts) -/

/-- Argument shape of the `hashtags` parameter: either an array of tags or a
single space/comma-separated string. -/
inductive HashtagsInput where
  | arr (tags : List String)
  | str (s : String)
  deriving Repr, DecidableEq

/-- Test for a leading `#` character. -/
def startsWithHash (s : String) : Bool :=
  match s.data with
  | '#' :: _ => true
  | _ => false

/-- Removal of one leading `#`, the regex `replace(/^#/, "")`. -/
def stripHash (s : String) : String :=
  match s.data with
  | '#' :: rest => String.mk rest
  | _ => s

/-- Splitter at every character satisfying `p` (the semantics of
`String.split`; empty pieces between adjacent separators are produced and
filtered away downstream, matching the run-splitting regex `[\s,]+` of the
source after its `filter(Boolean)`). `acc` holds the current piece reversed. -/
def splitChars (p : Char → Bool) : List Char → List Char → List String
  | acc, [] => [String.mk acc.reverse]
  | acc, c :: cs =>
    if p c then String.mk acc.reverse :: splitChars p [] cs
    else splitChars p (c :: acc) cs

/-- Embedding of `normalizeHashtags` (src/utils.ts lines 8-17): trims each tag,
drops a leading `#`, and discards empty entries; a string input is first split
on whitespace and commas. -/
def normalizeHashtags : Option HashtagsInput → List String
  | none => []
  | some (.arr tags) =>
    (tags.map (fun t => if jsTrim t == "" then "" else stripHash (jsTrim t))).filter
      (fun s => !(s == ""))
  | some (.str s) =>
    ((splitChars (fun c => c.isWhitespace || c == ',') [] s.data).map
      (fun t => stripHash (jsTrim t))).filter (fun s => !(s == ""))

/-- Embedding of `appendHashtags` (src/utils.ts lines 25-30): appends the
normalized tags, each prefixed with `#`, space-separated, on a new line. -/
def appendHashtags (content : String) (hashtags : Option HashtagsInput) : String :=
  let parts := normalizeHashtags hashtags
  if parts.length == 0 then content
  else
    let formatted := String.intercalate " "
      (parts.map (fun p => if startsWithHash p then p else "#" ++ p))
    jsTrim (content ++ "\n" ++ formatted)

/-- Removal of every U+FFFD replacement character (`replace(/�/g, "")`). -/
def stripReplacementChars (cs : List Char) : List Char :=
  cs.filter (fun c => !(c == Char.ofNat 0xFFFD))

/-- Replacement of each CRLF pair by LF (`replace(/\r\n/g, "\n")`). -/
def crlfToLf : List Char → List Char
  | [] => []
  | '\r' :: '\n' :: rest => '\n' :: crlfToLf rest
  | c :: rest => c :: crlfToLf rest

/-- Replacement of each remaining CR by LF (`replace(/\r/g, "\n")`). -/
def crToLf (cs : List Char) : List Char := cs.map (fun c => if c == '\r' then '\n' else c)

/-- Embedding of `sanitizeContent` (src/utils.ts lines 37-43): strips
replacement characters, normalizes line endings, and trims. -/
def sanitizeContent (text : String) : String :=
  jsTrim (String.mk (crToLf (crlfToLf (stripReplacementChars text.data))))

/-! ## Data model (src/types.ts) -/

/-- Platform codes: f = Facebook, i = Instagram, l = LinkedIn, t = Threads. -/
inductive PlatformCode where
  | f
  | i
  | l
  | t
  deriving Repr, DecidableEq

/-- Embedding of `CODE_TO_PLATFORM_LABEL` (src/utils.ts lines 50-55). -/
def CODE_TO_PLATFORM_LABEL : PlatformCode → String
  | .f => "Facebook"
  | .i => "Instagram"
  | .l => "LinkedIn"
  | .t => "Threads"

/-- Meta (Facebook + Instagram) configuration (src/types.ts). Required string
fields are plain `String` (missing-at-runtime is the empty string, which is
what the source's truthiness checks test); optional fields are `Option`. -/
structure MetaConfig where
  pageAccessToken : String
  pageId : String
  instagramBusinessAccountId : Option String := none
  adAccountId : Option String := none
  deriving Repr, DecidableEq

/-- LinkedIn configuration (src/types.ts). -/
structure LinkedInConfig where
  accessToken : String
  personUrn : Option String := none
  organizationUrn : Option String := none
  deriving Repr, DecidableEq

/-- Threads configuration (src/types.ts). -/
structure ThreadsConfig where
  userId : String
  accessToken : String
  deriving Repr, DecidableEq

/-- Credentials per platform (src/types.ts `SocialPostingConfig`). -/
structure SocialPostingConfig where
  meta : Option MetaConfig := none
  linkedin : Option LinkedInConfig := none
  threads : Option ThreadsConfig := none
  deriving Repr, DecidableEq

/-- Value of the `linkedinPostAs` parameter. -/
inductive LinkedinPostAs where
  | person
  | organization
  deriving Repr, DecidableEq

/-- String rendering of `linkedinPostAs` used in the failure message. -/
def postAsLabel : LinkedinPostAs → String
  | .person => "person"
  | .organization => "organization"

/-- Parameters of `crossPost` (src/types.ts `CrossPostParams`). `imageBufferLen`
is the byte length of `imageBuffer` (0 models an absent buffer; the source only
tests presence and `length > 0` and forwards the bytes to `uploadImage`).
Targeting/ad fields are forwarded verbatim to the Facebook adapter and do not
influence the orchestrator control flow, so they are not represented here. -/
structure CrossPostParams where
  postOn : List PlatformCode
  content : String
  imageUrl : Option String := none
  imageBufferLen : Nat := 0
  hashtags : Option HashtagsInput := none
  platformContent : PlatformCode → Option String := fun _ => none
  contentSuffix : Option String := none
  threadsUserId : Option String := none
  threadsAccessToken : Option String := none
  retries : Option Int := none
  linkedinPostAs : Option LinkedinPostAs := none

/-- Client options (`SocialPostingClientOptions`): `uploadImage` maps the
buffer length to the public URL the injected callback would return;
`contentAdapter` receives content, platform label and code and returns the
adapted content (or `none` for a nullish return). Progress callbacks are
observations without influence on results and are not represented. -/
structure SocialPostingClientOptions where
  uploadImage : Option (Nat → String) := none
  contentAdapter : Option (String → String → PlatformCode → Option String) := none
  contentSuffix : Option String := none

/-- Result for a single platform attempt (src/types.ts `PlatformResult`). -/
structure PlatformResult where
  platform : String
  code : PlatformCode
  postId : Option String := none
  error : Option String := none
  content : Option String := none
  permalink : Option String := none
  postedAt : Option String := none
  attempt : Option Nat := none
  deriving Repr, DecidableEq

/-- Entry of the `failed` list of a cross-post result. -/
structure FailedEntry where
  platform : String
  error : String
  deriving Repr, DecidableEq

/-- Result of a `crossPost` call (src/types.ts `CrossPostResult`); the batch
status is one of the strings "full", "partial", "failed". -/
structure CrossPostResult where
  platformResults : List PlatformResult
  failed : List FailedEntry
  batchStatus : String
  maxAttempt : Option Nat := none
  deriving Repr, DecidableEq

/-- Parsed success shape of one platform adapter publish call, as consumed by
the orchestrator (`postId` plus optional permalink). -/
structure AdapterOk where
  postId : String
  permalink : Option String := none
  deriving Repr, DecidableEq

/-! ## Orchestrator: `SocialPostingClient.crossPost` (src/client.ts lines 99-324)

The per-platform adapter calls (`postToMeta`, `postToInstagram`,
`postToLinkedIn`, `postToThreads`) are modelled by an oracle
`net : Nat → Nat → Except SErr AdapterOk` giving the outcome of the `doPost`
invocation at loop iteration `idx` (0-based position in `postOn`) and 1-based
attempt number `a`. `now` is the ISO timestamp `new Date().toISOString()`. -/

/-- Embedding of the image-resolution prologue of `crossPost` (lines 100-108):
an explicit URL is trimmed and used; otherwise, with a non-empty buffer and an
`uploadImage` option, the upload callback provides the URL; a non-empty buffer
with no resulting URL aborts the whole call with a thrown `Error`. -/
def resolveImageUrl (opts : SocialPostingClientOptions) (params : CrossPostParams) :
    Except String (Option String) :=
  let iu0 : Option String := params.imageUrl.map jsTrim
  let iu1 : Option String :=
    if !(truthy iu0) && params.imageBufferLen > 0 then
      match opts.uploadImage with
      | some up => some (up params.imageBufferLen)
      | none => iu0
    else iu0
  if !(truthy iu1) && params.imageBufferLen > 0 then
    .error "imageBuffer provided but no uploadImage option; pass imageUrl or set uploadImage in options"
  else
    .ok iu1

/-- Embedding of the per-platform content computation (lines 110-130): platform
override (trimmed) else the suffixed base content, then the optional content
adapter, appended hashtags, and sanitization. -/
def effectiveContent (opts : SocialPostingClientOptions) (params : CrossPostParams)
    (baseContent : String) (code : PlatformCode) : String :=
  let c0 : String :=
    match params.platformContent code with
    | some s => jsTrim s
    | none => baseContent
  let c1 : String :=
    match opts.contentAdapter with
    | some ad =>
      if !(c0 == "") then
        match ad c0 (CODE_TO_PLATFORM_LABEL code) code with
        | some r => jsTrim r
        | none => c0
      else c0
    | none => c0
  sanitizeContent (appendHashtags c1 params.hashtags)

/-- Embedding of the retry wrapper around `doPost` (e.g. lines 170-172): when
`retries > 0` the call goes through `withRetries`, otherwise `doPost` runs once
and the attempt count is 1. -/
def runAdapter (net : Nat → Except SErr AdapterOk) (retries : Nat) :
    Except SErr (AdapterOk × Nat) :=
  if retries > 0 then withRetries net retries
  else (net 1).map (fun r => (r, 1))

/-- Outcome of one iteration of the platform loop: the platform result pushed
to `platformResults`, the optional entry pushed to `failed`, and the attempt
number used for the `maxAttempt` update (0 when no successful adapter attempt
count was produced, leaving the running maximum unchanged). -/
def postOutcome (label : String) (code : PlatformCode) (content : String) (now : String)
    (res : Except SErr (AdapterOk × Nat)) : PlatformResult × Option FailedEntry × Nat :=
  match res with
  | .ok (r, attempt) =>
    ({ platform := label, code := code, postId := some r.postId, content := some content,
       permalink := r.permalink, postedAt := some now, attempt := some attempt }, none, attempt)
  | .error e =>
    ({ platform := label, code := code, error := some e.message, content := some content },
     some ⟨label, e.message⟩, 0)

/-- Configuration-error outcome of one iteration (the branches that push to
`failed` and `platformResults` and `continue`); `msgFailed` and `msgResult`
differ only in the LinkedIn author-URN branch. -/
def configFailOutcome (label : String) (code : PlatformCode) (content : String)
    (msgFailed msgResult : String) : PlatformResult × Option FailedEntry × Nat :=
  ({ platform := label, code := code, error := some msgResult, content := some content },
   some ⟨label, msgFailed⟩, 0)

/-- Embedding of one iteration of the platform loop of `crossPost`
(lines 122-311): credential and image checks per platform, then the adapter
call through the retry wrapper, with thrown errors becoming failed entries. -/
def crossPostStep (cfg : SocialPostingConfig) (opts : SocialPostingClientOptions)
    (params : CrossPostParams) (imageUrl : Option String) (baseContent : String)
    (retries : Nat) (net : Nat → Except SErr AdapterOk) (now : String)
    (code : PlatformCode) : PlatformResult × Option FailedEntry × Nat :=
  let label := CODE_TO_PLATFORM_LABEL code
  let content := effectiveContent opts params baseContent code
  match code with
  | .f =>
    if !(truthy (cfg.meta.map MetaConfig.pageAccessToken)) ||
       !(truthy (cfg.meta.map MetaConfig.pageId)) then
      configFailOutcome label code content "Meta config missing (pageAccessToken, pageId)"
        "Meta config missing (pageAccessToken, pageId)"
    else if !(truthy imageUrl) then
      configFailOutcome label code content
        "Facebook requires imageUrl (or imageBuffer + uploadImage)"
        "Facebook requires imageUrl (or imageBuffer + uploadImage)"
    else postOutcome label code content now (runAdapter net retries)
  | .i =>
    if !(truthy (cfg.meta.map MetaConfig.pageAccessToken)) ||
       !(truthy (cfg.meta.bind MetaConfig.instagramBusinessAccountId)) then
      configFailOutcome label code content
        "Meta config missing (pageAccessToken, instagramBusinessAccountId)"
        "Meta config missing (pageAccessToken, instagramBusinessAccountId)"
    else if !(truthy imageUrl) then
      configFailOutcome label code content
        "Instagram requires imageUrl (or imageBuffer + uploadImage)"
        "Instagram requires imageUrl (or imageBuffer + uploadImage)"
    else postOutcome label code content now (runAdapter net retries)
  | .l =>
    if !(truthy (cfg.linkedin.map LinkedInConfig.accessToken)) then
      configFailOutcome label code content "LinkedIn config missing (accessToken)"
        "LinkedIn config missing (accessToken)"
    else
      let postAs := params.linkedinPostAs.getD .person
      let authorUrn : Option String :=
        match postAs with
        | .organization =>
          ((cfg.linkedin.bind LinkedInConfig.organizationUrn).map jsTrim).orElse
            (fun _ => (cfg.linkedin.bind LinkedInConfig.personUrn).map jsTrim)
        | .person =>
          ((cfg.linkedin.bind LinkedInConfig.personUrn).map jsTrim).orElse
            (fun _ => (cfg.linkedin.bind LinkedInConfig.organizationUrn).map jsTrim)
      if !(truthy authorUrn) then
        configFailOutcome label code content
          ("LinkedIn config missing (personUrn or organizationUrn); linkedinPostAs=" ++
            postAsLabel postAs)
          "LinkedIn config missing (personUrn or organizationUrn)"
      else postOutcome label code content now (runAdapter net retries)
  | .t =>
    let tUserId : Option String :=
      (params.threadsUserId.map jsTrim).orElse
        (fun _ => (cfg.threads.map ThreadsConfig.userId).map jsTrim)
    let tAccessToken : Option String :=
      (params.threadsAccessToken.map jsTrim).orElse
        (fun _ => (cfg.threads.map ThreadsConfig.accessToken).map jsTrim)
    if !(truthy tUserId) || !(truthy tAccessToken) then
      configFailOutcome label code content
        "Threads config missing (userId, accessToken) or pass in params"
        "Threads config missing (userId, accessToken)"
    else postOutcome label code content now (runAdapter net retries)

/-- Accumulator of the platform loop: the two growing lists and the running
maximum attempt count (initialized to 1). -/
structure CrossAcc where
  platformResults : List PlatformResult := []
  failed : List FailedEntry := []
  maxAttempt : Nat := 1
  deriving Repr, DecidableEq

/-- The platform loop of `crossPost`, iterating the requested codes in order
with their 0-based iteration index. -/
def crossPostLoop (step : Nat → PlatformCode → PlatformResult × Option FailedEntry × Nat) :
    Nat → List PlatformCode → CrossAcc → CrossAcc
  | _, [], acc => acc
  | idx, code :: rest, acc =>
    let out := step idx code
    crossPostLoop step (idx + 1) rest
      { platformResults := acc.platformResults ++ [out.1]
        failed := acc.failed ++ out.2.1.toList
        maxAttempt := max acc.maxAttempt out.2.2 }

/-- Assembly of the final `CrossPostResult` from the loop accumulator
(src/client.ts lines 313-323): the derived batch status and the optional
`maxAttempt` field (present only when greater than 1). -/
def assembleResult (acc : CrossAcc) : CrossPostResult :=
  let completedCount := (acc.platformResults.filter (fun r => truthy r.postId)).length
  let failedCount := acc.failed.length
  { platformResults := acc.platformResults
    failed := acc.failed
    batchStatus :=
      if failedCount == 0 then "full" else if completedCount == 0 then "failed" else "partial"
    maxAttempt := if acc.maxAttempt > 1 then some acc.maxAttempt else none }

/-- Embedding of `SocialPostingClient.crossPost` (src/client.ts lines 99-324).
Returns `Except.error` for the one thrown `Error` of the prologue (raw image
bytes with no way to obtain a URL); otherwise the aggregated batch result. -/
def crossPost (cfg : SocialPostingConfig) (opts : SocialPostingClientOptions)
    (params : CrossPostParams) (net : Nat → Nat → Except SErr AdapterOk)
    (now : String) : Except String CrossPostResult :=
  match resolveImageUrl opts params with
  | .error m => .error m
  | .ok imageUrl =>
    let contentSuffix : String := (params.contentSuffix.orElse (fun _ => opts.contentSuffix)).getD ""
    let baseContent : String :=
      if !(contentSuffix == "") && !(params.content == "") then
        jsTrim (params.content ++ "\n" ++ contentSuffix)
      else params.content
    let retries : Nat := (params.retries.getD 0).toNat
    let step := fun idx code =>
      crossPostStep cfg opts params imageUrl baseContent retries (fun a => net idx a) now code
    .ok (assembleResult (crossPostLoop step 0 params.postOn {}))

/-- Recomputation of the batch status from the outcome list alone: "full" when
no outcome carries an error, "failed" when additionally no outcome carries a
truthy post id, "partial" otherwise. -/
def statusOfOutcomes (prs : List PlatformResult) : String :=
  if (prs.filter (fun r => r.error.isSome)).length == 0 then "full"
  else if (prs.filter (fun r => truthy r.postId)).length == 0 then "failed"
  else "partial"

/-! ## Structural lemmas about the platform loop -/

/-- Per-iteration outputs of the platform loop, in request order. -/
def loopOuts (step : Nat → PlatformCode → PlatformResult × Option FailedEntry × Nat) :
    Nat → List PlatformCode → List (PlatformResult × Option FailedEntry × Nat)
  | _, [] => []
  | idx, c :: rest => step idx c :: loopOuts step (idx + 1) rest

lemma crossPostLoop_eq (step : Nat → PlatformCode → PlatformResult × Option FailedEntry × Nat) :
    ∀ cs idx acc, crossPostLoop step idx cs acc =
      { platformResults := acc.platformResults ++ (loopOuts step idx cs).map (fun o => o.1)
        failed := acc.failed ++ ((loopOuts step idx cs).map (fun o => o.2.1.toList)).flatten
        maxAttempt := (loopOuts step idx cs).foldl (fun m o => max m o.2.2) acc.maxAttempt } := by
  intro cs
  induction cs with
  | nil => intro idx acc; simp [crossPostLoop, loopOuts]
  | cons c rest ih =>
    intro idx acc
    rw [crossPostLoop, loopOuts]
    rw [ih]
    simp [List.append_assoc, List.map_cons, List.flatten, List.foldl_cons]

lemma loopOuts_length (step : Nat → PlatformCode → PlatformResult × Option FailedEntry × Nat) :
    ∀ cs idx, (loopOuts step idx cs).length = cs.length := by
  intro cs
  induction cs with
  | nil => intro idx; rfl
  | cons c rest ih => intro idx; simp [loopOuts, ih]

lemma loopOuts_map_code (step : Nat → PlatformCode → PlatformResult × Option FailedEntry × Nat)
    (hstep : ∀ idx code, (step idx code).1.code = code) :
    ∀ cs idx, ((loopOuts step idx cs).map (fun o => o.1)).map PlatformResult.code = cs := by
  intro cs
  induction cs with
  | nil => intro idx; rfl
  | cons c rest ih => intro idx; simp [loopOuts, hstep, ih]

lemma loopOuts_getElem? (step : Nat → PlatformCode → PlatformResult × Option FailedEntry × Nat) :
    ∀ cs idx k c, cs[k]? = some c → (loopOuts step idx cs)[k]? = some (step (idx + k) c) := by
  intro cs
  induction cs with
  | nil => intro idx k c h; simp at h
  | cons x rest ih =>
    intro idx k c h
    cases k with
    | zero => simp at h; subst h; simp [loopOuts]
    | succ k =>
      simp only [List.getElem?_cons_succ] at h
      have := ih (idx + 1) k c h
      simp only [loopOuts, List.getElem?_cons_succ]
      rw [this]
      congr 2
      omega

lemma loopOuts_failed_count
    (step : Nat → PlatformCode → PlatformResult × Option FailedEntry × Nat)
    (hstep : ∀ idx code, ((step idx code).2.1).isSome = (step idx code).1.error.isSome) :
    ∀ cs idx, (((loopOuts step idx cs).map (fun o => o.2.1.toList)).flatten).length =
      (((loopOuts step idx cs).map (fun o => o.1)).filter (fun r => r.error.isSome)).length := by
  intro cs
  induction cs with
  | nil => intro idx; rfl
  | cons c rest ih =>
    intro idx
    simp only [loopOuts, List.map_cons, List.flatten, List.filter_cons, List.length_append]
    have h := hstep idx c
    cases hfe : (step idx c).2.1 with
    | none =>
      rw [hfe] at h
      simp only [Option.isSome_none] at h
      rw [← h]
      simp [ih]
    | some fe =>
      rw [hfe] at h
      simp only [Option.isSome_some] at h
      rw [← h]
      simp [ih]
      omega

lemma postOutcome_code (label : String) (code : PlatformCode) (content now : String)
    (res : Except SErr (AdapterOk × Nat)) :
    (postOutcome label code content now res).1.code = code := by
  cases res with
  | ok p => cases p; rfl
  | error e => rfl

lemma postOutcome_char (label : String) (code : PlatformCode) (content now : String)
    (res : Except SErr (AdapterOk × Nat)) :
    ((postOutcome label code content now res).2.1).isSome =
      (postOutcome label code content now res).1.error.isSome ∧
    (postOutcome label code content now res).1.postId.isSome =
      !(postOutcome label code content now res).1.error.isSome := by
  cases res with
  | ok p => cases p; exact ⟨rfl, rfl⟩
  | error e => exact ⟨rfl, rfl⟩

lemma crossPostStep_code (cfg : SocialPostingConfig) (opts : SocialPostingClientOptions)
    (params : CrossPostParams) (imageUrl : Option String) (baseContent : String)
    (retries : Nat) (net : Nat → Except SErr AdapterOk) (now : String) (code : PlatformCode) :
    (crossPostStep cfg opts params imageUrl baseContent retries net now code).1.code = code := by
  cases code <;>
    simp only [crossPostStep] <;>
    (repeat' split) <;>
    simp [configFailOutcome, postOutcome_code]

lemma crossPostStep_char (cfg : SocialPostingConfig) (opts : SocialPostingClientOptions)
    (params : CrossPostParams) (imageUrl : Option String) (baseContent : String)
    (retries : Nat) (net : Nat → Except SErr AdapterOk) (now : String) (code : PlatformCode) :
    ((crossPostStep cfg opts params imageUrl baseContent retries net now code).2.1).isSome =
      (crossPostStep cfg opts params imageUrl baseContent retries net now code).1.error.isSome ∧
    (crossPostStep cfg opts params imageUrl baseContent retries net now code).1.postId.isSome =
      !(crossPostStep cfg opts params imageUrl baseContent retries net now code).1.error.isSome := by
  cases code <;>
    simp only [crossPostStep] <;>
    (repeat' split) <;>
    first
      | exact postOutcome_char _ _ _ _ _
      | simp [configFailOutcome]

lemma crossPost_ok_elim (cfg : SocialPostingConfig) (opts : SocialPostingClientOptions)
    (params : CrossPostParams) (net : Nat → Nat → Except SErr AdapterOk) (now : String)
    (res : CrossPostResult) (h : crossPost cfg opts params net now = .ok res) :
    ∃ imageUrl baseContent retries,
      res = assembleResult (crossPostLoop
        (fun idx code => crossPostStep cfg opts params imageUrl baseContent retries
          (fun a => net idx a) now code) 0 params.postOn {}) := by
  rw [crossPost] at h
  cases hri : resolveImageUrl opts params with
  | error m => rw [hri] at h; simp at h
  | ok imageUrl =>
    rw [hri] at h
    simp only [Except.ok.injEq] at h
    exact ⟨imageUrl, _, _, h.symm⟩

lemma completed_zero_iff (prs : List PlatformResult) :
    ((prs.filter (fun r => truthy r.postId)).length = 0) ↔
      prs.all (fun r => !(truthy r.postId)) = true := by
  rw [List.length_eq_zero, List.filter_eq_nil_iff, List.all_eq_true]
  simp

lemma assembleResult_status_char (acc : CrossAcc)
    (hcount : acc.failed.length =
      (acc.platformResults.filter (fun r => r.error.isSome)).length) :
    ((assembleResult acc).batchStatus = "full" ↔ (assembleResult acc).failed = []) ∧
    ((assembleResult acc).batchStatus = "failed" ↔ ((assembleResult acc).failed ≠ [] ∧
      (assembleResult acc).platformResults.all (fun r => !(truthy r.postId)) = true)) ∧
    ((assembleResult acc).batchStatus = "partial" ↔ ((assembleResult acc).failed ≠ [] ∧
      ¬ (assembleResult acc).platformResults.all (fun r => !(truthy r.postId)) = true)) ∧
    (assembleResult acc).batchStatus = statusOfOutcomes (assembleResult acc).platformResults := by
  simp only [assembleResult, statusOfOutcomes]
  by_cases hF : acc.failed.length = 0
  · have hnil : acc.failed = [] := List.length_eq_zero.mp hF
    have hE : (acc.platformResults.filter (fun r => r.error.isSome)).length = 0 := by omega
    simp [hF, hnil, hE]
  · have hnil : acc.failed ≠ [] := by
      intro hn; exact hF (by simp [hn])
    have hE : ¬ (acc.platformResults.filter (fun r => r.error.isSome)).length = 0 := by omega
    by_cases hC : (acc.platformResults.filter (fun r => truthy r.postId)).length = 0
    · have hall := (completed_zero_iff acc.platformResults).mp hC
      simp [hF, hnil, hE, hC, hall]
    · have hall : ¬ acc.platformResults.all (fun r => !(truthy r.postId)) = true :=
        fun hx => hC ((completed_zero_iff acc.platformResults).mpr hx)
      simp [hF, hnil, hE, hC, hall]

/-- C1: for every `crossPost` call that returns, the `platformResults` list has
exactly one entry per element of `params.postOn` — never more, never fewer —
and the i-th result's platform code equals the i-th requested code (stated as
equality of the code projection with the request list), including iterations
that fail with a configuration error or a thrown adapter error. -/
theorem crossPost_one_outcome_per_platform :
    ∀ cfg opts params net now res,
      crossPost cfg opts params net now = Except.ok res →
      res.platformResults.length = params.postOn.length ∧
      res.platformResults.map PlatformResult.code = params.postOn := by
  intro cfg opts params net now res h
  obtain ⟨imageUrl, baseContent, retries, rfl⟩ := crossPost_ok_elim cfg opts params net now res h
  rw [crossPostLoop_eq]
  simp only [assembleResult, List.nil_append]
  constructor
  · rw [List.length_map, loopOuts_length]
  · exact loopOuts_map_code _
      (fun idx code => crossPostStep_code cfg opts params imageUrl baseContent retries _ now code)
      params.postOn 0

/-- Counterexample-style oracle: every adapter call fails with a network error. -/
def cxNetDown : Nat → Nat → Except SErr AdapterOk :=
  fun _ _ => .error ⟨"net down", none, none, true⟩

/-- Witness outcome for C1: the configuration-error result of a Facebook
attempt with no credentials configured. -/
def c1wOutcome : PlatformResult :=
  { platform := "Facebook"
    code := PlatformCode.f
    error := some "Meta config missing (pageAccessToken, pageId)"
    content := some "x" }

/-- Witness batch result for C1: one requested platform (Facebook) with no
credentials configured yields exactly one outcome, with code `f`. -/
def c1wRes : CrossPostResult :=
  { platformResults := [c1wOutcome]
    failed := [⟨"Facebook", "Meta config missing (pageAccessToken, pageId)"⟩]
    batchStatus := "failed" }

theorem crossPost_one_outcome_per_platform_witness :
    c1wRes.platformResults.length = [PlatformCode.f].length ∧
    c1wRes.platformResults.map PlatformResult.code = [PlatformCode.f] :=
  crossPost_one_outcome_per_platform {} {} { postOn := [PlatformCode.f], content := "x" }
    cxNetDown "t0" c1wRes rfl

/-- C2 (amended): for every `crossPost` call, `batchStatus = "full"` iff the
`failed` list is empty; `batchStatus = "failed"` iff the `failed` list is
non-empty and no element of `platformResults` has a truthy `postId`;
`batchStatus = "partial"` iff the `failed` list is non-empty and some element
has a truthy `postId`; and the status is a pure function of the outcome list
(`statusOfOutcomes`), never set independently. The original unconditional
second iff fails on the empty batch, where the status is "full" while no
outcome has a post id. -/
theorem crossPost_batchStatus_amended :
    ∀ cfg opts params net now res,
      crossPost cfg opts params net now = Except.ok res →
      (res.batchStatus = "full" ↔ res.failed = []) ∧
      (res.batchStatus = "failed" ↔ (res.failed ≠ [] ∧
        res.platformResults.all (fun r => !(truthy r.postId)) = true)) ∧
      (res.batchStatus = "partial" ↔ (res.failed ≠ [] ∧
        ¬ res.platformResults.all (fun r => !(truthy r.postId)) = true)) ∧
      res.batchStatus = statusOfOutcomes res.platformResults := by
  intro cfg opts params net now res h
  obtain ⟨imageUrl, baseContent, retries, rfl⟩ := crossPost_ok_elim cfg opts params net now res h
  rw [crossPostLoop_eq]
  apply assembleResult_status_char
  simp only [List.nil_append]
  exact loopOuts_failed_count _
    (fun idx code => (crossPostStep_char cfg opts params imageUrl baseContent retries _ now code).1)
    params.postOn 0

theorem crossPost_batchStatus_amended_witness :
    (c1wRes.batchStatus = "full" ↔ c1wRes.failed = []) ∧
    (c1wRes.batchStatus = "failed" ↔ (c1wRes.failed ≠ [] ∧
      c1wRes.platformResults.all (fun r => !(truthy r.postId)) = true)) ∧
    (c1wRes.batchStatus = "partial" ↔ (c1wRes.failed ≠ [] ∧
      ¬ c1wRes.platformResults.all (fun r => !(truthy r.postId)) = true)) ∧
    c1wRes.batchStatus = statusOfOutcomes c1wRes.platformResults :=
  crossPost_batchStatus_amended {} {} { postOn := [PlatformCode.f], content := "x" }
    cxNetDown "t0" c1wRes rfl

/-- C2 counterexample: for the empty `postOn` list the returned batch status is
"full" while (vacuously) no element of `platformResults` has a post id, so the
claimed unconditional equivalence "batchStatus equals failed iff no element of
platformResults has a postId" fails: its right side holds and its left side
does not. -/
theorem crossPost_status_empty_cx :
    crossPost {} {} { postOn := [], content := "hello" } cxNetDown "t0" =
      Except.ok { platformResults := [], failed := [], batchStatus := "full" } ∧
    (([] : List PlatformResult).all (fun r => !(truthy r.postId)) = true) ∧
    ("full" : String) ≠ "failed" := by
  refine ⟨rfl, rfl, by decide⟩

lemma resolveImageUrl_error (opts : SocialPostingClientOptions) (params : CrossPostParams)
    (hup : opts.uploadImage = none)
    (hiu : truthy (params.imageUrl.map jsTrim) = false)
    (hbuf : 0 < params.imageBufferLen) :
    resolveImageUrl opts params =
      .error "imageBuffer provided but no uploadImage option; pass imageUrl or set uploadImage in options" := by
  unfold resolveImageUrl
  simp [hup, hiu, hbuf]

/-- C3 (amended): a `crossPost` call with a non-empty `imageBuffer`, no usable
`imageUrl`, and no `uploadImage` option fails as a whole with a thrown `Error`
before any per-platform outcome is produced; the missing-upload condition is
not surfaced per platform. -/
theorem crossPost_buffer_without_upload_amended :
    ∀ cfg opts params net now,
      opts.uploadImage = none →
      truthy (params.imageUrl.map jsTrim) = false →
      0 < params.imageBufferLen →
      crossPost cfg opts params net now =
        .error "imageBuffer provided but no uploadImage option; pass imageUrl or set uploadImage in options" := by
  intro cfg opts params net now hup hiu hbuf
  rw [crossPost, resolveImageUrl_error opts params hup hiu hbuf]

theorem crossPost_buffer_without_upload_amended_witness :
    crossPost {} {} { postOn := [], content := "x", imageBufferLen := 2 } cxNetDown "t1" =
      .error "imageBuffer provided but no uploadImage option; pass imageUrl or set uploadImage in options" :=
  crossPost_buffer_without_upload_amended {} {}
    { postOn := [], content := "x", imageBufferLen := 2 } cxNetDown "t1" rfl rfl (by decide)

/-- C3 counterexample: with a one-byte image buffer, no image URL and no upload
capability, `crossPost` does not return a batch result with one outcome per
requested platform — it rejects as a whole with the thrown error. -/
theorem crossPost_buffer_without_upload_cx :
    crossPost {} {} { postOn := [PlatformCode.f], content := "hi", imageBufferLen := 1 }
      cxNetDown "t0" =
      .error "imageBuffer provided but no uploadImage option; pass imageUrl or set uploadImage in options" := by
  rfl

lemma retryLoop_exhaust (fn : Nat → Except SErr α) :
    ∀ remaining attempt e,
      (∀ j, attempt ≤ j → j ≤ attempt + remaining → ∃ e2, fn j = .error e2 ∧
        isRetryableError e2 = true) →
      fn (attempt + remaining) = .error e →
      retryLoop fn attempt remaining = .error e := by
  intro remaining
  induction remaining with
  | zero =>
    intro attempt e _ hlast
    rw [retryLoop]
    have : attempt + 0 = attempt := by omega
    rw [this] at hlast
    rw [hlast]
  | succ r ih =>
    intro attempt e hall hlast
    rw [retryLoop]
    obtain ⟨e2, hfn, hr⟩ := hall attempt (le_refl _) (by omega)
    rw [hfn]
    simp only
    rw [if_pos hr]
    exact ih (attempt + 1) e
      (fun j h1 h2 => hall j (by omega) (by omega))
      (by rw [← hlast]; congr 1; omega)

/-- C4: the retry policy invokes the operation at most `retries + 1` times
(the outcome is fully determined by the first `retries + 1` invocation
results, and a success is reached within that bound); it returns the 1-based
attempt number of the succeeding invocation, with every earlier invocation a
transient failure; a permanent (non-retryable) first failure propagates with
the operation invoked exactly once; a transient first failure is retried, the
loop continuing from attempt 2 with one fewer retry; and when every allowed
attempt fails transiently, the last attempt's error propagates. The fixed
inter-attempt delay is a wall-clock effect outside the model. -/
theorem withRetries_spec :
    (∀ (α : Type) (fn : Nat → Except SErr α) (n : Nat) (a : α) (k : Nat),
      withRetries fn n = .ok (a, k) →
        1 ≤ k ∧ k ≤ n + 1 ∧ fn k = .ok a ∧
        (∀ j, 1 ≤ j → j < k → ∃ e, fn j = .error e ∧ isRetryableError e = true)) ∧
    (∀ (α : Type) (fn : Nat → Except SErr α) (n : Nat) (e : SErr),
      fn 1 = .error e → isRetryableError e = false → withRetries fn n = .error e) ∧
    (∀ (α : Type) (fn g : Nat → Except SErr α) (n : Nat),
      (∀ j, 1 ≤ j → j ≤ n + 1 → fn j = g j) → withRetries fn n = withRetries g n) ∧
    (∀ (α : Type) (fn : Nat → Except SErr α) (n : Nat) (e : SErr),
      fn 1 = .error e → isRetryableError e = true →
        withRetries fn (n + 1) = retryLoop fn 2 n) ∧
    (∀ (α : Type) (fn : Nat → Except SErr α) (n : Nat) (e : SErr),
      (∀ j, 1 ≤ j → j ≤ n + 1 → ∃ e2, fn j = .error e2 ∧ isRetryableError e2 = true) →
      fn (n + 1) = .error e → withRetries fn n = .error e) := by
  refine ⟨?_, ?_, ?_, ?_, ?_⟩
  · intro α fn n a k h
    obtain ⟨h1, h2, h3, h4⟩ := retryLoop_ok_char fn n 1 a k h
    exact ⟨h1, by omega, h3, h4⟩
  · intro α fn n e h1 h2
    rw [withRetries, retryLoop, h1]
    cases n with
    | zero => rfl
    | succ m => simp [h2]
  · intro α fn g n hagree
    exact retryLoop_congr fn g n 1 (fun j hj1 hj2 => hagree j hj1 (by omega))
  · intro α fn n e h1 h2
    exact retryLoop_transient_first fn n e h1 h2
  · intro α fn n e hall hlast
    exact retryLoop_exhaust fn n 1 e
      (fun j hj1 hj2 => hall j hj1 (by omega))
      (by rw [← hlast]; congr 1; omega)

/-- Witness permanent error for C4: a vendor rejection whose details carry no
rate-limit or server-fault status code and whose message has no transient
keyword, so `isRetryableError` classifies it as permanent. -/
def c4wErr : SErr :=
  { message := "Invalid OAuth access token"
    code := some "API_ERROR"
    details := some "(#190) Invalid OAuth access token" }

/-- Witness operation for C4: fails permanently on the first invocation and
would succeed afterwards. -/
def c4wFn : Nat → Except SErr Nat :=
  fun j => if j == 1 then .error c4wErr else .ok 7

theorem withRetries_spec_witness :
    c4wFn 1 = .error c4wErr ∧ isRetryableError c4wErr = false ∧
    withRetries c4wFn 5 = .error c4wErr := by
  refine ⟨rfl, by decide, ?_⟩
  exact withRetries_spec.2.1 Nat c4wFn 5 c4wErr rfl (by decide)

/-! ## Instagram two-phase publish state machine
(src/platforms/instagram.ts `postToInstagram`, lines 21-109) -/

/-- Network interactions performed by `postToInstagram`, in call order. -/
inductive IgCall where
  | createMedia
  | pollStatus (i : Nat)
  | mediaPublish
  | permalinkFetch
  deriving Repr, DecidableEq

/-- Oracle for the Instagram vendor API: the parsed `id` field of the
container-creation response, the parsed `status_code` field of the i-th
status poll, the parsed `id` field of the `media_publish` response, and the
parsed `permalink` field of the best-effort permalink lookup. An `Except`
error covers a network failure, a non-ok HTTP status (`throwIfNotOk`), or
unparseable JSON. -/
structure IgOracle where
  create : Except SErr (Option String)
  poll : Nat → Except SErr (Option String)
  publish : Except SErr (Option String)
  permalink : Except SErr (Option String)

/-- Result shape of `postToInstagram`. -/
structure IgResult where
  postId : String
  permalink : Option String := none
  deriving Repr, DecidableEq

/-- Finalization phase of `postToInstagram` (lines 75-108): the
`media_publish` call, the published-id check, and the best-effort permalink
lookup whose failures are swallowed. -/
def igPublishPhase (o : IgOracle) (trace : List IgCall) :
    Except SErr IgResult × List IgCall :=
  let trace1 := trace ++ [IgCall.mediaPublish]
  match o.publish with
  | .error e => (.error e, trace1)
  | .ok idOpt =>
    if !(truthy idOpt) then
      (.error ⟨"Instagram did not return media id", none, none, true⟩, trace1)
    else
      let trace2 := trace1 ++ [IgCall.permalinkFetch]
      let perm : Option String :=
        match o.permalink with
        | .ok (some p) => if p == "" then none else some p
        | _ => none
      (.ok ⟨idOpt.getD "", perm⟩, trace2)

/-- Polling loop of `postToInstagram` (lines 56-73): polls the container
status until FINISHED/PUBLISHED (proceed to publish), ERROR/EXPIRED (fatal
with the raw status text in the message), or deadline exhaustion (proceed to
publish anyway). `fuel` counts the remaining true evaluations of
`Date.now() < deadline`; `idx` numbers the polls from 0. -/
def igPollLoop (o : IgOracle) : Nat → Nat → List IgCall →
    Except SErr IgResult × List IgCall
  | _, 0, trace => igPublishPhase o trace
  | idx, fuel + 1, trace =>
    let trace1 := trace ++ [IgCall.pollStatus idx]
    match o.poll idx with
    | .error e => (.error e, trace1)
    | .ok st =>
      let statusCode := st.getD "UNKNOWN"
      if statusCode == "FINISHED" || statusCode == "PUBLISHED" then
        igPublishPhase o trace1
      else if statusCode == "ERROR" || statusCode == "EXPIRED" then
        (.error ⟨"Instagram container " ++ statusCode, none, none, true⟩, trace1)
      else igPollLoop o (idx + 1) fuel trace1

/-- Embedding of `postToInstagram` (src/platforms/instagram.ts lines 21-109):
credential checks, container creation, status polling, finalization via
`media_publish`, and best-effort permalink lookup. Returns the outcome
together with the trace of vendor calls made. -/
def postToInstagram (config : MetaConfig) (o : IgOracle) (pollBudget : Nat) :
    Except SErr IgResult × List IgCall :=
  if jsTrim config.pageAccessToken == "" then
    (.error ⟨"Meta pageAccessToken is required for Instagram", none, none, true⟩, [])
  else if !(truthy (config.instagramBusinessAccountId.map jsTrim)) then
    (.error ⟨"Meta instagramBusinessAccountId is required for Instagram", none, none, true⟩, [])
  else
    match o.create with
    | .error e => (.error e, [IgCall.createMedia])
    | .ok idOpt =>
      if !(truthy idOpt) then
        (.error ⟨"Instagram did not return container id", none, none, true⟩, [IgCall.createMedia])
      else igPollLoop o 0 pollBudget [IgCall.createMedia]

lemma igPublishPhase_trace (o : IgOracle) (trace : List IgCall) :
    (igPublishPhase o trace).2 = trace ++ [IgCall.mediaPublish] ∨
    (igPublishPhase o trace).2 = trace ++ [IgCall.mediaPublish, IgCall.permalinkFetch] := by
  rw [igPublishPhase]
  cases o.publish with
  | error e => left; rfl
  | ok idOpt =>
    simp only
    by_cases h : truthy idOpt
    · simp only [h]
      right
      simp
    · simp only [h]
      left
      simp

lemma igPublishPhase_ok_postId (o : IgOracle) (trace : List IgCall) (res : IgResult)
    (h : (igPublishPhase o trace).1 = .ok res) : o.publish = .ok (some res.postId) := by
  rw [igPublishPhase] at h
  cases hp : o.publish with
  | error e => rw [hp] at h; simp at h
  | ok idOpt =>
    rw [hp] at h
    simp only at h
    by_cases ht : truthy idOpt
    · simp only [ht] at h
      simp only [Bool.not_true, Bool.false_eq_true, if_false, Except.ok.injEq] at h
      cases idOpt with
      | none => simp [truthy] at ht
      | some s => subst h; rfl
    · simp only [ht] at h
      simp at h

lemma igPollLoop_ok_publish (o : IgOracle) :
    ∀ fuel idx trace res tr, igPollLoop o idx fuel trace = (.ok res, tr) →
      o.publish = .ok (some res.postId) := by
  intro fuel
  induction fuel with
  | zero =>
    intro idx trace res tr h
    rw [igPollLoop] at h
    exact igPublishPhase_ok_postId o trace res (by rw [h])
  | succ f ih =>
    intro idx trace res tr h
    rw [igPollLoop] at h
    cases hp : o.poll idx with
    | error e => rw [hp] at h; simp at h
    | ok st =>
      rw [hp] at h
      simp only at h
      by_cases h1 : (st.getD "UNKNOWN" == "FINISHED" || st.getD "UNKNOWN" == "PUBLISHED") = true
      · rw [if_pos h1] at h
        exact igPublishPhase_ok_postId o _ res (by rw [h])
      · rw [if_neg h1] at h
        by_cases h2 : (st.getD "UNKNOWN" == "ERROR" || st.getD "UNKNOWN" == "EXPIRED") = true
        · rw [if_pos h2] at h
          simp at h
        · rw [if_neg h2] at h
          exact ih (idx + 1) _ res tr h

/-! ## Threads publish (src/platforms/threads.ts `postToThreads`, lines 16-100) -/

/-- Network interactions performed by `postToThreads`, in call order. -/
inductive ThCall where
  | createThread
  | threadsPublish
  | permalinkFetch
  deriving Repr, DecidableEq

/-- Oracle for the Threads vendor API: parsed `id` of the container-creation
response, parsed `id` of the `threads_publish` response, and parsed
`permalink` of the best-effort permalink lookup. -/
structure ThreadsOracle where
  create : Except SErr (Option String)
  publish : Except SErr (Option String)
  permalink : Except SErr (Option String)

/-- Parameters of `postToThreads`. -/
structure ThreadsParams where
  content : String
  imageUrl : Option String := none
  altText : Option String := none
  linkAttachment : Option String := none

/-- Result shape of `postToThreads`. -/
structure ThreadsPostResult where
  postId : String
  permalink : Option String := none
  deriving Repr, DecidableEq

/-- The Threads text-length cap (`THREADS_TEXT_MAX_LENGTH`). -/
def THREADS_TEXT_MAX_LENGTH : Nat := 500

/-- Embedding of `postToThreads` (src/platforms/threads.ts lines 16-100):
credential checks, the content/image requirement, the 500-character cap on the
trimmed text, container creation, publish when an image is attached (the
publish-response id replacing the container id when truthy), the final id
check, and the best-effort permalink lookup. The string length is the
code-point count (the source counts UTF-16 units; they agree outside
surrogate-pair characters). -/
def postToThreads (config : ThreadsConfig) (params : ThreadsParams) (o : ThreadsOracle) :
    Except SErr ThreadsPostResult × List ThCall :=
  if jsTrim config.userId == "" then
    (.error ⟨"Threads userId is required", none, none, true⟩, [])
  else if jsTrim config.accessToken == "" then
    (.error ⟨"Threads accessToken is required", none, none, true⟩, [])
  else
    let text := jsTrim params.content
    if text == "" && !(truthy (params.imageUrl.map jsTrim)) then
      (.error ⟨"Threads post requires content or image", none, none, true⟩, [])
    else if THREADS_TEXT_MAX_LENGTH < text.length then
      (.error ⟨"Threads post text cannot exceed 500 characters", none, none, true⟩, [])
    else
      let mediaTypeImage := truthy (params.imageUrl.map jsTrim)
      match o.create with
      | .error e => (.error e, [ThCall.createThread])
      | .ok createId =>
        let step2 : Except SErr (Option String) × List ThCall :=
          if mediaTypeImage && truthy createId then
            match o.publish with
            | .error e => (.error e, [ThCall.createThread, ThCall.threadsPublish])
            | .ok pubId =>
              (.ok (if truthy pubId then pubId else createId),
               [ThCall.createThread, ThCall.threadsPublish])
          else (.ok createId, [ThCall.createThread])
        match step2 with
        | (.error e, tr) => (.error e, tr)
        | (.ok containerId, tr) =>
          if !(truthy containerId) then
            (.error ⟨"Threads did not return media id", none, none, true⟩, tr)
          else
            let perm : Option String :=
              match o.permalink with
              | .ok (some p) => if p == "" then none else some p
              | _ => none
            (.ok ⟨containerId.getD "", perm⟩, tr ++ [ThCall.permalinkFetch])

lemma postToInstagram_valid (config : MetaConfig) (o : IgOracle) (pollBudget : Nat)
    (cid : String) (hT : jsTrim config.pageAccessToken ≠ "")
    (hI : truthy (config.instagramBusinessAccountId.map jsTrim) = true)
    (hc : o.create = .ok (some cid)) (hcid : cid ≠ "") :
    postToInstagram config o pollBudget = igPollLoop o 0 pollBudget [IgCall.createMedia] := by
  have h1 : (jsTrim config.pageAccessToken == "") = false := by
    simpa using hT
  have h3 : truthy (some cid) = true := by
    simp [truthy, hcid]
  rw [postToInstagram, h1, hI, hc]
  simp [h3]

/-- C5: in the Instagram two-phase publish state machine, polled statuses
PENDING, PENDING, FINISHED lead to exactly one `media_publish` call, made
after the third poll; polled statuses PENDING then ERROR lead to no
`media_publish` call and an error whose message carries the raw status text
"ERROR". Hypotheses: valid credentials, a truthy container id from creation,
and a poll deadline (`pollBudget`) allowing the polls in question. -/
theorem postToInstagram_poll_machine :
    (∀ (config : MetaConfig) (o : IgOracle) (pollBudget : Nat) (cid : String),
      jsTrim config.pageAccessToken ≠ "" →
      truthy (config.instagramBusinessAccountId.map jsTrim) = true →
      o.create = .ok (some cid) → cid ≠ "" →
      o.poll 0 = .ok (some "PENDING") → o.poll 1 = .ok (some "PENDING") →
      o.poll 2 = .ok (some "FINISHED") → 3 ≤ pollBudget →
      ((postToInstagram config o pollBudget).2.take 5 =
        [IgCall.createMedia, IgCall.pollStatus 0, IgCall.pollStatus 1, IgCall.pollStatus 2,
          IgCall.mediaPublish] ∧
        (postToInstagram config o pollBudget).2.count IgCall.mediaPublish = 1)) ∧
    (∀ (config : MetaConfig) (o : IgOracle) (pollBudget : Nat) (cid : String),
      jsTrim config.pageAccessToken ≠ "" →
      truthy (config.instagramBusinessAccountId.map jsTrim) = true →
      o.create = .ok (some cid) → cid ≠ "" →
      o.poll 0 = .ok (some "PENDING") → o.poll 1 = .ok (some "ERROR") → 2 ≤ pollBudget →
      postToInstagram config o pollBudget =
        (.error ⟨"Instagram container ERROR", none, none, true⟩,
          [IgCall.createMedia, IgCall.pollStatus 0, IgCall.pollStatus 1])) := by
  constructor
  · intro config o pollBudget cid hT hI hc hcid hp0 hp1 hp2 hb
    obtain ⟨b, hb3⟩ := Nat.le.dest hb
    have hbud : pollBudget = b + 3 := by omega
    subst hbud
    rw [postToInstagram_valid config o (b + 3) cid hT hI hc hcid]
    rw [igPollLoop, hp0]
    simp only [Option.getD_some]
    rw [if_neg (by decide), if_neg (by decide)]
    rw [igPollLoop, hp1]
    simp only [Option.getD_some]
    rw [if_neg (by decide), if_neg (by decide)]
    rw [igPollLoop, hp2]
    simp only [Option.getD_some]
    rw [if_pos (by decide)]
    rcases igPublishPhase_trace o
        ([IgCall.createMedia] ++ [IgCall.pollStatus 0] ++ [IgCall.pollStatus 1] ++
          [IgCall.pollStatus 2]) with h | h <;>
      rw [h] <;> constructor <;> rfl
  · intro config o pollBudget cid hT hI hc hcid hp0 hp1 hb
    obtain ⟨b, hb2⟩ := Nat.le.dest hb
    have hbud : pollBudget = b + 2 := by omega
    subst hbud
    rw [postToInstagram_valid config o (b + 2) cid hT hI hc hcid]
    rw [igPollLoop, hp0]
    simp only [Option.getD_some]
    rw [if_neg (by decide), if_neg (by decide)]
    rw [igPollLoop, hp1]
    simp only [Option.getD_some]
    rw [if_neg (by decide), if_pos (by decide)]
    rfl

/-- Witness configuration for the Instagram machine: valid credentials. -/
def c5wConfig : MetaConfig :=
  { pageAccessToken := "tok", pageId := "pg", instagramBusinessAccountId := some "ig1" }

/-- Witness oracle for C5: container created, two pending polls, then
FINISHED; publish succeeds. -/
def c5wOracle : IgOracle :=
  { create := .ok (some "c1")
    poll := fun i => if i == 0 || i == 1 then .ok (some "PENDING") else .ok (some "FINISHED")
    publish := .ok (some "m1")
    permalink := .ok none }

theorem postToInstagram_poll_machine_witness :
    (postToInstagram c5wConfig c5wOracle 15).2.take 5 =
      [IgCall.createMedia, IgCall.pollStatus 0, IgCall.pollStatus 1, IgCall.pollStatus 2,
        IgCall.mediaPublish] ∧
    (postToInstagram c5wConfig c5wOracle 15).2.count IgCall.mediaPublish = 1 :=
  postToInstagram_poll_machine.1 c5wConfig c5wOracle 15 "c1" (by decide) (by decide) rfl
    (by decide) rfl rfl rfl (by decide)

lemma postToInstagram_ok_publish (config : MetaConfig) (o : IgOracle) (pollBudget : Nat)
    (res : IgResult) (tr : List IgCall)
    (h : postToInstagram config o pollBudget = (.ok res, tr)) :
    o.publish = .ok (some res.postId) := by
  rw [postToInstagram] at h
  by_cases h1 : (jsTrim config.pageAccessToken == "") = true
  · rw [if_pos h1] at h; simp at h
  · rw [if_neg h1] at h
    by_cases h2 : (!(truthy (config.instagramBusinessAccountId.map jsTrim))) = true
    · rw [if_pos h2] at h; simp at h
    · rw [if_neg h2] at h
      cases hc : o.create with
      | error e => rw [hc] at h; simp at h
      | ok idOpt =>
        rw [hc] at h
        simp only at h
        by_cases h3 : (!(truthy idOpt)) = true
        · rw [if_pos h3] at h; simp at h
        · rw [if_neg h3] at h
          exact igPollLoop_ok_publish o pollBudget 0 [IgCall.createMedia] res tr h

/-- C6: for every two-phase publish that succeeds, the recorded `postId` is
the published resource id returned by the finalize call — Instagram's
`media_publish` response id, and, when an image is attached, Threads's
`threads_publish` response id — not the initial creation/container id
(whenever the two ids differ, the recorded id is the finalize one). -/
theorem twoPhase_postId_from_finalize :
    (∀ (config : MetaConfig) (o : IgOracle) (pollBudget : Nat) (res : IgResult)
        (tr : List IgCall) (p : String),
      postToInstagram config o pollBudget = (.ok res, tr) →
      o.publish = .ok (some p) → res.postId = p) ∧
    (∀ (config : ThreadsConfig) (params : ThreadsParams) (o : ThreadsOracle)
        (res : ThreadsPostResult) (tr : List ThCall) (p : String),
      truthy (params.imageUrl.map jsTrim) = true →
      o.publish = .ok (some p) → p ≠ "" →
      postToThreads config params o = (.ok res, tr) → res.postId = p) := by
  constructor
  · intro config o pollBudget res tr p h hp
    have h2 := postToInstagram_ok_publish config o pollBudget res tr h
    rw [hp] at h2
    simpa using h2.symm
  · intro config params o res tr p himg hp hpne h
    rw [postToThreads] at h
    by_cases h1 : (jsTrim config.userId == "") = true
    · rw [if_pos h1] at h; simp at h
    · rw [if_neg h1] at h
      by_cases h2 : (jsTrim config.accessToken == "") = true
      · rw [if_pos h2] at h; simp at h
      · rw [if_neg h2] at h
        simp only [himg, Bool.not_true] at h
        by_cases h3 : (jsTrim params.content == "" && false) = true
        · simp at h3
        · rw [if_neg h3] at h
          by_cases h4 : (THREADS_TEXT_MAX_LENGTH < (jsTrim params.content).length)
          · rw [if_pos h4] at h; simp at h
          · rw [if_neg h4] at h
            cases hc : o.create with
            | error e => rw [hc] at h; simp at h
            | ok createId =>
              rw [hc] at h
              simp only [Bool.true_and] at h
              cases htc : truthy createId with
              | true =>
                rw [htc] at h
                have h6 : truthy (some p) = true := by simp [truthy, hpne]
                rw [hp] at h
                simp only [if_true, h6, Bool.not_true, Bool.false_eq_true, if_false,
                  Option.getD_some, Prod.mk.injEq, Except.ok.injEq] at h
                obtain ⟨hres, -⟩ := h
                rw [← hres]
              | false =>
                rw [htc] at h
                simp only [Bool.false_eq_true, if_false, Bool.not_false] at h
                simp [htc] at h

/-- Witness Threads oracle for C6: container "tc1", published id "tp9". -/
def c6wThreadsOracle : ThreadsOracle :=
  { create := .ok (some "tc1"), publish := .ok (some "tp9"), permalink := .ok none }

theorem twoPhase_postId_from_finalize_witness :
    (⟨"m1", none⟩ : IgResult).postId = "m1" ∧
    (⟨"tp9", none⟩ : ThreadsPostResult).postId = "tp9" :=
  ⟨twoPhase_postId_from_finalize.1 c5wConfig c5wOracle 15 ⟨"m1", none⟩
      [IgCall.createMedia, IgCall.pollStatus 0, IgCall.pollStatus 1, IgCall.pollStatus 2,
        IgCall.mediaPublish, IgCall.permalinkFetch] "m1" rfl rfl,
    twoPhase_postId_from_finalize.2 ⟨"u1", "at1"⟩ { content := "hello", imageUrl := some "http" }
      c6wThreadsOracle ⟨"tp9", none⟩
      [ThCall.createThread, ThCall.threadsPublish, ThCall.permalinkFetch]
      "tp9" (by decide) rfl (by decide) rfl⟩

/-- The error thrown by `postToThreads` for over-long text. -/
def threadsLengthErr : SErr :=
  ⟨"Threads post text cannot exceed 500 characters", none, none, true⟩

lemma retryLoop_all_error (fn : Nat → Except SErr α) (e : SErr)
    (hall : ∀ j, fn j = .error e) :
    ∀ remaining attempt, retryLoop fn attempt remaining = .error e := by
  intro remaining
  induction remaining with
  | zero => intro attempt; rw [retryLoop, hall]
  | succ r ih =>
    intro attempt
    rw [retryLoop, hall]
    simp only
    by_cases hr : isRetryableError e = true
    · rw [if_pos hr]; exact ih (attempt + 1)
    · rw [if_neg hr]

/-- C10: the Threads adapter rejects, before any network call, a post whose
trimmed text exceeds 500 characters (and likewise a post with neither text nor
image), throwing a `SocialPostingError`; consequently a `crossPost` outcome
for the Threads channel whose adapter call throws that error carries an error
message and no post id. The spec states no such text-length limit. -/
theorem postToThreads_length_limit :
    (∀ (config : ThreadsConfig) (params : ThreadsParams) (o : ThreadsOracle),
      jsTrim config.userId ≠ "" → jsTrim config.accessToken ≠ "" →
      THREADS_TEXT_MAX_LENGTH < (jsTrim params.content).length →
      postToThreads config params o = (.error threadsLengthErr, [])) ∧
    (∀ (config : ThreadsConfig) (params : ThreadsParams) (o : ThreadsOracle),
      jsTrim config.userId ≠ "" → jsTrim config.accessToken ≠ "" →
      jsTrim params.content = "" → truthy (params.imageUrl.map jsTrim) = false →
      postToThreads config params o =
        (.error ⟨"Threads post requires content or image", none, none, true⟩, [])) ∧
    (∀ cfg opts params net now res k,
      crossPost cfg opts params net now = Except.ok res →
      params.postOn[k]? = some PlatformCode.t →
      (∀ a, net k a = .error threadsLengthErr) →
      ∃ pr, res.platformResults[k]? = some pr ∧ pr.postId = none ∧
        (pr.error = some "Threads post text cannot exceed 500 characters" ∨
          pr.error = some "Threads config missing (userId, accessToken)")) := by
  refine ⟨?_, ?_, ?_⟩
  · intro config params o hU hA hlen
    have h1 : (jsTrim config.userId == "") = false := by simpa using hU
    have h2 : (jsTrim config.accessToken == "") = false := by simpa using hA
    have h3 : (jsTrim params.content == "") = false := by
      have : jsTrim params.content ≠ "" := by
        intro hx
        rw [hx] at hlen
        simp [THREADS_TEXT_MAX_LENGTH] at hlen
      simpa using this
    rw [postToThreads, h1, h2]
    simp [h3, hlen, threadsLengthErr]
  · intro config params o hU hA htext himg
    have h1 : (jsTrim config.userId == "") = false := by simpa using hU
    have h2 : (jsTrim config.accessToken == "") = false := by simpa using hA
    rw [postToThreads, h1, h2]
    simp [htext, himg]
  · intro cfg opts params net now res k h hk hnet
    obtain ⟨imageUrl, baseContent, retries, rfl⟩ := crossPost_ok_elim cfg opts params net now res h
    rw [crossPostLoop_eq]
    simp only [assembleResult, List.nil_append]
    rw [List.getElem?_map]
    have hl := loopOuts_getElem?
      (fun idx code => crossPostStep cfg opts params imageUrl baseContent retries
        (fun a => net idx a) now code) params.postOn 0 k PlatformCode.t hk
    rw [hl]
    simp only [Option.map_some, Nat.zero_add]
    refine ⟨_, rfl, ?_⟩
    have hrun : runAdapter (fun a => net k a) retries = .error threadsLengthErr := by
      rw [runAdapter]
      by_cases hr : retries > 0
      · rw [if_pos hr, withRetries]
        exact retryLoop_all_error (fun a => net k a) threadsLengthErr (fun j => hnet j) retries 1
      · rw [if_neg hr, hnet 1]
        rfl
    simp only [crossPostStep]
    by_cases hcond : (!(truthy ((params.threadsUserId.map jsTrim).orElse
        (fun _ => (cfg.threads.map ThreadsConfig.userId).map jsTrim))) ||
        !(truthy ((params.threadsAccessToken.map jsTrim).orElse
        (fun _ => (cfg.threads.map ThreadsConfig.accessToken).map jsTrim)))) = true
    · rw [if_pos hcond]
      simp [configFailOutcome]
    · rw [if_neg hcond]
      rw [hrun]
      simp [postOutcome, threadsLengthErr]

/-- Witness text for C10: 501 repetitions of a letter. -/
def c10wText : String := String.mk (List.replicate 501 'a')

/-- Witness Threads oracle for C10 (never reached by the length check). -/
def c10wOracle : ThreadsOracle :=
  { create := .ok (some "z"), publish := .ok none, permalink := .ok none }

set_option maxRecDepth 20000 in
theorem postToThreads_length_limit_witness :
    postToThreads ⟨"u1", "at1"⟩ { content := c10wText } c10wOracle =
      (.error threadsLengthErr, []) :=
  postToThreads_length_limit.1 ⟨"u1", "at1"⟩ { content := c10wText } c10wOracle
    (by decide) (by decide) (by decide)

/-! ## Meta ad provisioning pipeline
(src/platforms/meta.ts `runMetaAds`, lines 561-611, and the client wrapper
`SocialPostingClient.runMetaAds`, src/client.ts lines 561-602) -/

/-- The five provisioning stages, in the order the pipeline runs them. The
pipeline performs no other vendor calls — in particular no deletions. -/
inductive AdStage where
  | adImageUpload
  | campaignCreate
  | adSetCreate
  | creativeCreate
  | adRecordCreate
  deriving Repr, DecidableEq

/-- Oracle for the Meta Marketing API: the parsed image hash of the ad-image
upload, and the parsed `id` fields of the campaign / ad-set / creative / ad
creation responses. -/
structure AdsOracle where
  uploadImage : Except SErr (Option String)
  campaign : Except SErr (Option String)
  adset : Except SErr (Option String)
  creative : Except SErr (Option String)
  adRecord : Except SErr (Option String)

/-- Success shape of the library-level `runMetaAds`. -/
structure MetaAdsOk where
  campaignId : String
  adSetId : String
  adId : String
  status : String
  deriving Repr, DecidableEq

/-- Parameters of `runMetaAds`. Targeting, budget and names are forwarded
verbatim into the vendor request payloads (absorbed by the oracle) and do not
influence the pipeline control flow. -/
structure RunMetaAdsParams where
  content : String
  imageUrl : String
  dailyBudget : Nat := 0
  campaignName : Option String := none
  adSetName : Option String := none
  startImmediately : Bool := false

/-- Embedding of the library-level `runMetaAds` (src/platforms/meta.ts lines
561-611): config checks, then the five stages strictly in order — image
upload, campaign, ad set, creative, ad record — each aborting the remainder on
failure (either a thrown vendor error or a missing id in the response).
Returns the outcome together with the trace of stages attempted. -/
def metaRunMetaAds (config : MetaConfig) (params : RunMetaAdsParams) (o : AdsOracle) :
    Except SErr MetaAdsOk × List AdStage :=
  if !(truthy (config.adAccountId.map jsTrim)) then
    (.error ⟨"Meta adAccountId is required for runMetaAds", none, none, true⟩, [])
  else if jsTrim config.pageAccessToken == "" then
    (.error ⟨"Meta pageAccessToken is required", none, none, true⟩, [])
  else
    let status := if params.startImmediately then "ACTIVE" else "PAUSED"
    match o.uploadImage with
    | .error e => (.error e, [AdStage.adImageUpload])
    | .ok h =>
      if !(truthy h) then
        (.error ⟨"Meta did not return image hash", none, none, true⟩, [AdStage.adImageUpload])
      else
        match o.campaign with
        | .error e => (.error e, [AdStage.adImageUpload, AdStage.campaignCreate])
        | .ok cId =>
          if !(truthy cId) then
            (.error ⟨"Meta did not return campaign id", none, none, true⟩,
             [AdStage.adImageUpload, AdStage.campaignCreate])
          else
            match o.adset with
            | .error e =>
              (.error e, [AdStage.adImageUpload, AdStage.campaignCreate, AdStage.adSetCreate])
            | .ok aId =>
              if !(truthy aId) then
                (.error ⟨"Meta did not return ad set id", none, none, true⟩,
                 [AdStage.adImageUpload, AdStage.campaignCreate, AdStage.adSetCreate])
              else
                match o.creative with
                | .error e =>
                  (.error e, [AdStage.adImageUpload, AdStage.campaignCreate,
                    AdStage.adSetCreate, AdStage.creativeCreate])
                | .ok crId =>
                  if !(truthy crId) then
                    (.error ⟨"Meta did not return creative id", none, none, true⟩,
                     [AdStage.adImageUpload, AdStage.campaignCreate, AdStage.adSetCreate,
                       AdStage.creativeCreate])
                  else
                    match o.adRecord with
                    | .error e =>
                      (.error e, [AdStage.adImageUpload, AdStage.campaignCreate,
                        AdStage.adSetCreate, AdStage.creativeCreate, AdStage.adRecordCreate])
                    | .ok adId =>
                      if !(truthy adId) then
                        (.error ⟨"Meta did not return ad id", none, none, true⟩,
                         [AdStage.adImageUpload, AdStage.campaignCreate, AdStage.adSetCreate,
                           AdStage.creativeCreate, AdStage.adRecordCreate])
                      else
                        (.ok ⟨cId.getD "", aId.getD "", adId.getD "", status⟩,
                         [AdStage.adImageUpload, AdStage.campaignCreate, AdStage.adSetCreate,
                           AdStage.creativeCreate, AdStage.adRecordCreate])

/-- Result shape of the client-level `runMetaAds` (src/types.ts
`RunMetaAdsResult`). -/
structure RunMetaAdsResult where
  campaignId : String
  adSetId : String
  adId : String
  status : String
  error : Option String := none
  deriving Repr, DecidableEq

/-- Embedding of `SocialPostingClient.runMetaAds` (src/client.ts lines
561-602): config checks, then the library pipeline; a thrown pipeline error is
caught and surfaced as the `error` field of a result whose resource-id fields
are all empty strings. -/
def clientRunMetaAds (cfg : SocialPostingConfig) (params : RunMetaAdsParams)
    (o : AdsOracle) : RunMetaAdsResult × List AdStage :=
  if !(truthy (cfg.meta.map MetaConfig.pageAccessToken)) ||
     !(truthy (cfg.meta.map MetaConfig.pageId)) then
    ({ campaignId := "", adSetId := "", adId := "", status := "PAUSED",
       error := some "Meta config missing (pageAccessToken, pageId)" }, [])
  else if !(truthy ((cfg.meta.bind MetaConfig.adAccountId).map jsTrim)) then
    ({ campaignId := "", adSetId := "", adId := "", status := "PAUSED",
       error := some "Meta adAccountId is required for runMetaAds" }, [])
  else
    match cfg.meta with
    | none =>
      ({ campaignId := "", adSetId := "", adId := "", status := "PAUSED",
         error := some "Meta config missing (pageAccessToken, pageId)" }, [])
    | some m =>
      match metaRunMetaAds m params o with
      | (.ok r, tr) =>
        ({ campaignId := r.campaignId, adSetId := r.adSetId, adId := r.adId,
           status := r.status, error := none }, tr)
      | (.error e, tr) =>
        ({ campaignId := "", adSetId := "", adId := "", status := "PAUSED",
           error := some e.message }, tr)

lemma truthy_some_ne (s : String) (h : s ≠ "") : truthy (some s) = true := by
  simp [truthy, h]

/-- C7 (amended): the five provisioning stages run strictly in order — image
upload, campaign, ad set, creative, ad record; when a stage fails, no later
stage is attempted (the call trace is exactly the prefix of the stage list up
to and including the failing stage), no vendor call other than the five
creation stages is ever made (so nothing is deleted), and the stage error is
surfaced as the `error` field of the client result — whose resource-id fields
are, however, all empty strings: the ids of resources created before the
failing stage are not included in the returned result. -/
theorem runMetaAds_stage_order_amended :
    (∀ (config : MetaConfig) (params : RunMetaAdsParams) (o : AdsOracle) (e : SErr),
      truthy (config.adAccountId.map jsTrim) = true → jsTrim config.pageAccessToken ≠ "" →
      o.uploadImage = .error e →
      metaRunMetaAds config params o = (.error e, [AdStage.adImageUpload])) ∧
    (∀ (config : MetaConfig) (params : RunMetaAdsParams) (o : AdsOracle) (e : SErr)
        (h1 : String),
      truthy (config.adAccountId.map jsTrim) = true → jsTrim config.pageAccessToken ≠ "" →
      o.uploadImage = .ok (some h1) → h1 ≠ "" → o.campaign = .error e →
      metaRunMetaAds config params o =
        (.error e, [AdStage.adImageUpload, AdStage.campaignCreate])) ∧
    (∀ (config : MetaConfig) (params : RunMetaAdsParams) (o : AdsOracle) (e : SErr)
        (h1 c1 : String),
      truthy (config.adAccountId.map jsTrim) = true → jsTrim config.pageAccessToken ≠ "" →
      o.uploadImage = .ok (some h1) → h1 ≠ "" → o.campaign = .ok (some c1) → c1 ≠ "" →
      o.adset = .error e →
      metaRunMetaAds config params o =
        (.error e, [AdStage.adImageUpload, AdStage.campaignCreate, AdStage.adSetCreate])) ∧
    (∀ (config : MetaConfig) (params : RunMetaAdsParams) (o : AdsOracle) (e : SErr)
        (h1 c1 a1 : String),
      truthy (config.adAccountId.map jsTrim) = true → jsTrim config.pageAccessToken ≠ "" →
      o.uploadImage = .ok (some h1) → h1 ≠ "" → o.campaign = .ok (some c1) → c1 ≠ "" →
      o.adset = .ok (some a1) → a1 ≠ "" → o.creative = .error e →
      metaRunMetaAds config params o =
        (.error e, [AdStage.adImageUpload, AdStage.campaignCreate, AdStage.adSetCreate,
          AdStage.creativeCreate])) ∧
    (∀ (config : MetaConfig) (params : RunMetaAdsParams) (o : AdsOracle) (e : SErr)
        (h1 c1 a1 r1 : String),
      truthy (config.adAccountId.map jsTrim) = true → jsTrim config.pageAccessToken ≠ "" →
      o.uploadImage = .ok (some h1) → h1 ≠ "" → o.campaign = .ok (some c1) → c1 ≠ "" →
      o.adset = .ok (some a1) → a1 ≠ "" → o.creative = .ok (some r1) → r1 ≠ "" →
      o.adRecord = .error e →
      metaRunMetaAds config params o =
        (.error e, [AdStage.adImageUpload, AdStage.campaignCreate, AdStage.adSetCreate,
          AdStage.creativeCreate, AdStage.adRecordCreate])) ∧
    (∀ (config : MetaConfig) (params : RunMetaAdsParams) (o : AdsOracle)
        (h1 c1 a1 r1 d1 : String),
      truthy (config.adAccountId.map jsTrim) = true → jsTrim config.pageAccessToken ≠ "" →
      o.uploadImage = .ok (some h1) → h1 ≠ "" → o.campaign = .ok (some c1) → c1 ≠ "" →
      o.adset = .ok (some a1) → a1 ≠ "" → o.creative = .ok (some r1) → r1 ≠ "" →
      o.adRecord = .ok (some d1) → d1 ≠ "" →
      metaRunMetaAds config params o =
        (.ok ⟨c1, a1, d1, if params.startImmediately then "ACTIVE" else "PAUSED"⟩,
         [AdStage.adImageUpload, AdStage.campaignCreate, AdStage.adSetCreate,
           AdStage.creativeCreate, AdStage.adRecordCreate])) ∧
    (∀ (cfg : SocialPostingConfig) (m : MetaConfig) (params : RunMetaAdsParams)
        (o : AdsOracle) (e : SErr) (tr : List AdStage),
      cfg.meta = some m → m.pageAccessToken ≠ "" → m.pageId ≠ "" →
      truthy (m.adAccountId.map jsTrim) = true →
      metaRunMetaAds m params o = (.error e, tr) →
      clientRunMetaAds cfg params o =
        ({ campaignId := "", adSetId := "", adId := "", status := "PAUSED",
           error := some e.message }, tr)) := by
  refine ⟨?_, ?_, ?_, ?_, ?_, ?_, ?_⟩
  · intro config params o e hA hT hu
    rw [metaRunMetaAds, if_neg (by simp [hA]), if_neg (by simpa using hT), hu]
  · intro config params o e h1 hA hT hu hne hc
    simp [metaRunMetaAds, hA, hT, hu, hc, truthy_some_ne _ hne]
  · intro config params o e h1 c1 hA hT hu hne hc hcne ha
    simp [metaRunMetaAds, hA, hT, hu, hc, ha, truthy_some_ne _ hne, truthy_some_ne _ hcne]
  · intro config params o e h1 c1 a1 hA hT hu hne hc hcne ha hane hcr
    simp [metaRunMetaAds, hA, hT, hu, hc, ha, hcr, truthy_some_ne _ hne,
      truthy_some_ne _ hcne, truthy_some_ne _ hane]
  · intro config params o e h1 c1 a1 r1 hA hT hu hne hc hcne ha hane hcr hcrne hd
    simp [metaRunMetaAds, hA, hT, hu, hc, ha, hcr, hd, truthy_some_ne _ hne,
      truthy_some_ne _ hcne, truthy_some_ne _ hane, truthy_some_ne _ hcrne]
  · intro config params o h1 c1 a1 r1 d1 hA hT hu hne hc hcne ha hane hcr hcrne hd hdne
    simp [metaRunMetaAds, hA, hT, hu, hc, ha, hcr, hd, truthy_some_ne _ hne,
      truthy_some_ne _ hcne, truthy_some_ne _ hane, truthy_some_ne _ hcrne,
      truthy_some_ne _ hdne]
  · intro cfg m params o e tr hm hT hP hA hrun
    simp [clientRunMetaAds, hm, hrun, hA, truthy_some_ne _ hT, truthy_some_ne _ hP]

/-- Counterexample Meta configuration for C7. -/
def c7cxConfig : MetaConfig :=
  { pageAccessToken := "tok", pageId := "pg", adAccountId := some "act_1" }

/-- Counterexample client configuration for C7. -/
def c7cxCfg : SocialPostingConfig := { meta := some c7cxConfig }

/-- Counterexample oracle for C7: upload and campaign succeed (campaign id
"c1"), ad-set creation fails. -/
def c7cxOracle : AdsOracle :=
  { uploadImage := .ok (some "h1")
    campaign := .ok (some "c1")
    adset := .error ⟨"boom", none, none, true⟩
    creative := .ok (some "x")
    adRecord := .ok (some "y") }

/-- C7 counterexample: when the ad-set stage fails after the campaign stage
created resource "c1", the returned result carries the error but empty-string
resource ids — `campaignId` is `""`, not the already-created `"c1"` — so the
claim that the error is surfaced together with the ids of the resources
already created is false. -/
theorem runMetaAds_ids_not_surfaced_cx :
    clientRunMetaAds c7cxCfg { content := "ad", imageUrl := "http" } c7cxOracle =
      ({ campaignId := "", adSetId := "", adId := "", status := "PAUSED",
         error := some "boom" },
       [AdStage.adImageUpload, AdStage.campaignCreate, AdStage.adSetCreate]) ∧
    c7cxOracle.campaign = .ok (some "c1") ∧
    ("" : String) ≠ "c1" := by
  refine ⟨rfl, rfl, by decide⟩

/-- Witness oracle for C7: the creative stage fails after three successful
stages. -/
def c7wOracle : AdsOracle :=
  { uploadImage := .ok (some "h2")
    campaign := .ok (some "c2")
    adset := .ok (some "a2")
    creative := .error ⟨"creative rejected", none, none, true⟩
    adRecord := .ok (some "y2") }

theorem runMetaAds_stage_order_amended_witness :
    metaRunMetaAds c7cxConfig { content := "ad2", imageUrl := "http2" } c7wOracle =
      (.error ⟨"creative rejected", none, none, true⟩,
       [AdStage.adImageUpload, AdStage.campaignCreate, AdStage.adSetCreate,
         AdStage.creativeCreate]) :=
  runMetaAds_stage_order_amended.2.2.2.1 c7cxConfig { content := "ad2", imageUrl := "http2" }
    c7wOracle ⟨"creative rejected", none, none, true⟩ "h2" "c2" "a2" (by decide) (by decide)
    rfl (by decide) rfl (by decide) rfl (by decide) rfl

/-! ## Reply batch processor
(src/client.ts `SocialPostingClient.replyToComments`, lines 488-554) -/

/-- Single reply request (src/types.ts `ReplyRequest`). -/
structure ReplyRequest where
  channel : PlatformCode
  message : String
  commentId : Option String := none
  postId : Option String := none
  deriving Repr, DecidableEq

/-- Result for a single successful reply attempt (src/types.ts `ReplyResult`). -/
structure ReplyResult where
  channel : String
  code : PlatformCode
  commentId : Option String := none
  replyId : Option String := none
  error : Option String := none
  deriving Repr, DecidableEq

/-- Entry of the `failed` / `skipped` lists of the reply batch result. -/
structure ChannelErrEntry where
  channel : String
  code : PlatformCode
  error : String
  deriving Repr, DecidableEq

/-- Result of `replyToComments` (src/types.ts `ReplyToCommentsResult`). -/
structure ReplyToCommentsResult where
  results : List ReplyResult
  failed : List ChannelErrEntry
  skipped : List ChannelErrEntry
  batchStatus : String
  deriving Repr, DecidableEq

/-- The skip decision of one request (the guards of src/client.ts lines
502-535): the skip-entry message when credentials or the required identifier
are missing (comment id for Facebook and Instagram; parent-post id for
LinkedIn and Threads), `none` when an attempt is made. -/
def replySkipMsg (cfg : SocialPostingConfig) (req : ReplyRequest) : Option String :=
  match req.channel with
  | .f =>
    if !(truthy (cfg.meta.map MetaConfig.pageAccessToken)) || !(truthy req.commentId) then
      some "Meta config or commentId missing"
    else none
  | .i =>
    if !(truthy (cfg.meta.map MetaConfig.pageAccessToken)) || !(truthy req.commentId) then
      some "Meta Instagram config or commentId missing"
    else none
  | .l =>
    if !(truthy (cfg.linkedin.map LinkedInConfig.accessToken)) || !(truthy req.postId) then
      some "LinkedIn config or postId missing"
    else none
  | .t =>
    if !(truthy (cfg.threads.map ThreadsConfig.userId)) ||
       !(truthy (cfg.threads.map ThreadsConfig.accessToken)) || !(truthy req.postId) then
      some "Threads config or postId missing"
    else none

/-- The entry pushed to `results` on a successful reply: Threads omits the
`commentId` field; the comment-reply channels carry the request's comment id. -/
def replySuccessEntry (req : ReplyRequest) (replyId : String) : ReplyResult :=
  match req.channel with
  | .t =>
    { channel := CODE_TO_PLATFORM_LABEL req.channel, code := req.channel,
      replyId := some replyId }
  | _ =>
    { channel := CODE_TO_PLATFORM_LABEL req.channel, code := req.channel,
      commentId := req.commentId, replyId := some replyId }

/-- Accumulator of the reply loop; `attempts` records the (0-based) indices of
requests for which a vendor call was made. -/
structure ReplyAcc where
  results : List ReplyResult := []
  failed : List ChannelErrEntry := []
  skipped : List ChannelErrEntry := []
  attempts : List Nat := []
  deriving Repr, DecidableEq

/-- One iteration of the reply loop (src/client.ts lines 499-546): a skip
routes to `skipped` without consulting the adapter oracle; otherwise the
adapter reply call (by original request index) routes to `results` on success
and to `failed` on a thrown error. -/
def replyStep (cfg : SocialPostingConfig) (o : Nat → Except SErr String)
    (acc : ReplyAcc) (item : Nat × ReplyRequest) : ReplyAcc :=
  let label := CODE_TO_PLATFORM_LABEL item.2.channel
  match replySkipMsg cfg item.2 with
  | some msg => { acc with skipped := acc.skipped ++ [⟨label, item.2.channel, msg⟩] }
  | none =>
    match o item.1 with
    | .ok rid =>
      { acc with results := acc.results ++ [replySuccessEntry item.2 rid]
                 attempts := acc.attempts ++ [item.1] }
    | .error e =>
      { acc with failed := acc.failed ++ [⟨label, item.2.channel, e.message⟩]
                 attempts := acc.attempts ++ [item.1] }

/-- Single-pass chunking worker: `remaining` is the free capacity of the chunk
being built, `cur` its elements in reverse; a full chunk is flushed and a new
one started. -/
def chunksAux (n : Nat) : List α → Nat → List α → List (List α)
  | [], _, cur => if cur.isEmpty then [] else [cur.reverse]
  | x :: xs, 0, cur => cur.reverse :: chunksAux n xs (n - 1) [x]
  | x :: xs, k + 1, cur => chunksAux n xs k (x :: cur)

/-- Partition of a list into successive chunks of `n` elements, mirroring the
`for (let i = 0; i < replies.length; i += batchLimit)` slicing; `n = 0` cannot
arise (the batch limit is clamped to 1..50). -/
def chunksOf (n : Nat) (l : List α) : List (List α) := chunksAux n l n []

/-- Embedding of `SocialPostingClient.replyToComments` (src/client.ts lines
488-554): clamps the batch limit to 1..50 (default 10), processes the
enumerated requests chunk by chunk in order, and derives the batch status from
`failed` and `results` only. `o idx` is the outcome of the vendor reply call
for the request at original position `idx` (a thrown error covers HTTP
failures and a missing reply id in the response). Returns the result together
with the list of attempted request indices. -/
def replyToComments (cfg : SocialPostingConfig) (replies : List ReplyRequest)
    (batchLimitOpt : Option Int) (o : Nat → Except SErr String) :
    ReplyToCommentsResult × List Nat :=
  let batchLimit : Nat := (min 50 (max 1 (batchLimitOpt.getD 10))).toNat
  let chunks := chunksOf batchLimit replies.enum
  let acc := chunks.foldl (fun a chunk => chunk.foldl (replyStep cfg o) a)
    { results := [], failed := [], skipped := [], attempts := [] }
  ({ results := acc.results, failed := acc.failed, skipped := acc.skipped,
     batchStatus := if acc.failed.length == 0 then "full"
       else if acc.results.length == 0 then "failed" else "partial" }, acc.attempts)

lemma chunksAux_flatten (n : Nat) :
    ∀ (l : List α) (k : Nat) (cur : List α),
      (chunksAux n l k cur).flatten = cur.reverse ++ l := by
  intro l
  induction l with
  | nil =>
    intro k cur
    cases cur with
    | nil => simp [chunksAux]
    | cons c cs => simp [chunksAux]
  | cons x xs ih =>
    intro k cur
    cases k with
    | zero => simp [chunksAux, ih]
    | succ k => simp [chunksAux, ih]

lemma chunksOf_flatten (n : Nat) (l : List α) : (chunksOf n l).flatten = l := by
  rw [chunksOf, chunksAux_flatten]
  rfl

lemma replyFold_char (cfg : SocialPostingConfig) (o : Nat → Except SErr String) :
    ∀ (l : List (Nat × ReplyRequest)) (acc : ReplyAcc),
      (l.foldl (replyStep cfg o) acc).results = acc.results ++ l.filterMap (fun it =>
        match replySkipMsg cfg it.2, o it.1 with
        | none, .ok rid => some (replySuccessEntry it.2 rid)
        | _, _ => none) ∧
      (l.foldl (replyStep cfg o) acc).failed = acc.failed ++ l.filterMap (fun it =>
        match replySkipMsg cfg it.2, o it.1 with
        | none, .error e =>
          some ⟨CODE_TO_PLATFORM_LABEL it.2.channel, it.2.channel, e.message⟩
        | _, _ => none) ∧
      (l.foldl (replyStep cfg o) acc).skipped = acc.skipped ++ l.filterMap (fun it =>
        (replySkipMsg cfg it.2).map
          (fun m => ⟨CODE_TO_PLATFORM_LABEL it.2.channel, it.2.channel, m⟩)) ∧
      (l.foldl (replyStep cfg o) acc).attempts = acc.attempts ++ l.filterMap (fun it =>
        if (replySkipMsg cfg it.2).isSome then none else some it.1) := by
  intro l
  induction l with
  | nil => intro acc; simp
  | cons x xs ih =>
    intro acc
    simp only [List.foldl_cons, List.filterMap_cons]
    cases hs : replySkipMsg cfg x.2 with
    | some msg =>
      have hstep : replyStep cfg o acc x =
          { acc with skipped := acc.skipped ++ [⟨CODE_TO_PLATFORM_LABEL x.2.channel,
              x.2.channel, msg⟩] } := by
        rw [replyStep, hs]
      rw [hstep]
      obtain ⟨i1, i2, i3, i4⟩ := ih { acc with skipped := acc.skipped ++
        [⟨CODE_TO_PLATFORM_LABEL x.2.channel, x.2.channel, msg⟩] }
      refine ⟨by simpa using i1, by simpa using i2, ?_, by simpa [hs] using i4⟩
      rw [i3]
      simp [List.append_assoc]
    | none =>
      cases ho : o x.1 with
      | ok rid =>
        have hstep : replyStep cfg o acc x =
            { acc with results := acc.results ++ [replySuccessEntry x.2 rid]
                       attempts := acc.attempts ++ [x.1] } := by
          rw [replyStep, hs, ho]
        rw [hstep]
        obtain ⟨i1, i2, i3, i4⟩ := ih { acc with
          results := acc.results ++ [replySuccessEntry x.2 rid]
          attempts := acc.attempts ++ [x.1] }
        refine ⟨?_, by simpa using i2, by simpa using i3, ?_⟩
        · rw [i1]; simp [List.append_assoc]
        · rw [i4]; simp [hs, List.append_assoc]
      | error e =>
        have hstep : replyStep cfg o acc x =
            { acc with failed := acc.failed ++ [⟨CODE_TO_PLATFORM_LABEL x.2.channel,
                x.2.channel, e.message⟩]
                       attempts := acc.attempts ++ [x.1] } := by
          rw [replyStep, hs, ho]
        rw [hstep]
        obtain ⟨i1, i2, i3, i4⟩ := ih { acc with
          failed := acc.failed ++ [⟨CODE_TO_PLATFORM_LABEL x.2.channel, x.2.channel, e.message⟩]
          attempts := acc.attempts ++ [x.1] }
        refine ⟨by simpa using i1, ?_, by simpa using i3, ?_⟩
        · rw [i2]; simp [List.append_assoc]
        · rw [i4]; simp [hs, List.append_assoc]

lemma replyToComments_acc (cfg : SocialPostingConfig) (replies : List ReplyRequest)
    (batchLimitOpt : Option Int) (o : Nat → Except SErr String) :
    replyToComments cfg replies batchLimitOpt o =
      (let acc := replies.enum.foldl (replyStep cfg o)
        { results := [], failed := [], skipped := [], attempts := [] }
       ({ results := acc.results, failed := acc.failed, skipped := acc.skipped,
          batchStatus := if acc.failed.length == 0 then "full"
            else if acc.results.length == 0 then "failed" else "partial" }, acc.attempts)) := by
  rw [replyToComments]
  have hfold : ∀ (L : List (List (Nat × ReplyRequest))) (a : ReplyAcc),
      L.foldl (fun a chunk => chunk.foldl (replyStep cfg o) a) a =
      L.flatten.foldl (replyStep cfg o) a := by
    intro L
    induction L with
    | nil => intro a; simp
    | cons c cs ihL => intro a; simp [List.foldl_append, ihL]
  rw [hfold, chunksOf_flatten]

lemma if_some_eq_none_iff (c : Bool) (m : String) :
    (if c = true then some m else none) = none ↔ c = false := by
  cases c <;> simp

/-- C8 (amended): in every `replyToComments` batch, each request is routed to
exactly one bucket: a request missing its credentials or its required
identifier — comment id for the comment-reply channels Facebook and Instagram,
parent-post id for LinkedIn and Threads (for LinkedIn the comment id is an
optional parent-comment argument, not a skip condition) — goes to `skipped`
without any vendor call (the skipped bucket and the attempted indices are
independent of the adapter oracle); an attempted request goes to `failed` on a
thrown vendor error and to `results` on success; chunking affects only
grouping; and `batchStatus` is derived from `failed` and `results` only, never
from `skipped`. -/
theorem replyToComments_routing_amended :
    ∀ (cfg : SocialPostingConfig) (replies : List ReplyRequest)
      (batchLimitOpt : Option Int) (o : Nat → Except SErr String),
      (replyToComments cfg replies batchLimitOpt o).1.results =
        replies.enum.filterMap (fun it =>
          match replySkipMsg cfg it.2, o it.1 with
          | none, .ok rid => some (replySuccessEntry it.2 rid)
          | _, _ => none) ∧
      (replyToComments cfg replies batchLimitOpt o).1.failed =
        replies.enum.filterMap (fun it =>
          match replySkipMsg cfg it.2, o it.1 with
          | none, .error e =>
            some ⟨CODE_TO_PLATFORM_LABEL it.2.channel, it.2.channel, e.message⟩
          | _, _ => none) ∧
      (replyToComments cfg replies batchLimitOpt o).1.skipped =
        replies.enum.filterMap (fun it =>
          (replySkipMsg cfg it.2).map
            (fun m => ⟨CODE_TO_PLATFORM_LABEL it.2.channel, it.2.channel, m⟩)) ∧
      (replyToComments cfg replies batchLimitOpt o).2 =
        replies.enum.filterMap (fun it =>
          if (replySkipMsg cfg it.2).isSome then none else some it.1) ∧
      (replyToComments cfg replies batchLimitOpt o).1.batchStatus =
        (if (replyToComments cfg replies batchLimitOpt o).1.failed.length == 0 then "full"
         else if (replyToComments cfg replies batchLimitOpt o).1.results.length == 0 then
           "failed"
         else "partial") ∧
      (∀ req : ReplyRequest, replySkipMsg cfg req = none ↔
        (match req.channel with
         | .f => truthy (cfg.meta.map MetaConfig.pageAccessToken) = true ∧
             truthy req.commentId = true
         | .i => truthy (cfg.meta.map MetaConfig.pageAccessToken) = true ∧
             truthy req.commentId = true
         | .l => truthy (cfg.linkedin.map LinkedInConfig.accessToken) = true ∧
             truthy req.postId = true
         | .t => truthy (cfg.threads.map ThreadsConfig.userId) = true ∧
             truthy (cfg.threads.map ThreadsConfig.accessToken) = true ∧
             truthy req.postId = true)) := by
  intro cfg replies batchLimitOpt o
  obtain ⟨h1, h2, h3, h4⟩ := replyFold_char cfg o replies.enum
    { results := [], failed := [], skipped := [], attempts := [] }
  have hacc := replyToComments_acc cfg replies batchLimitOpt o
  refine ⟨?_, ?_, ?_, ?_, ?_, ?_⟩
  · rw [hacc]; simpa using h1
  · rw [hacc]; simpa using h2
  · rw [hacc]; simpa using h3
  · rw [hacc]; simpa using h4
  · rw [hacc]
  · intro req
    obtain ⟨ch, msg, cid, pid⟩ := req
    cases ch <;>
      simp only [replySkipMsg] <;>
      rw [if_some_eq_none_iff] <;>
      simp [and_assoc]

/-- Counterexample configuration for C8: LinkedIn credentials present. -/
def c8cxCfg : SocialPostingConfig :=
  { linkedin := some { accessToken := "lt", personUrn := some "urn:li:person:1" } }

/-- Counterexample request for C8: a LinkedIn reply with a parent-post id but
no comment id. -/
def c8cxReq : ReplyRequest :=
  { channel := PlatformCode.l, message := "hi", postId := some "p1" }

/-- Counterexample oracle for C8: the vendor accepts the reply. -/
def c8cxOracle : Nat → Except SErr String := fun _ => .ok "r1"

/-- The successful reply entry of the C8 counterexample run. -/
def c8cxEntry : ReplyResult :=
  { channel := "LinkedIn", code := PlatformCode.l, replyId := some "r1" }

/-- C8 counterexample: a LinkedIn request missing its comment id (but carrying
a post id) is not routed to `skipped`: the vendor call is attempted (index 0
appears in the attempted list) and the request lands in `results` — refuting
the claim that a missing comment id routes a LinkedIn request to `skipped`
without a vendor call. The source skips LinkedIn requests on a missing
parent-post id instead. -/
theorem replyToComments_linkedin_commentId_cx :
    replyToComments c8cxCfg [c8cxReq] none c8cxOracle =
      ({ results := [c8cxEntry], failed := [], skipped := [], batchStatus := "full" }, [0]) ∧
    c8cxReq.commentId = none := ⟨rfl, rfl⟩

/-! ## Post deletion
(src/client.ts `SocialPostingClient.deletePost`, lines 609-648, and
src/platforms/instagram.ts `deletePost`, lines 226-228) -/

/-- The error always thrown by the Instagram `deletePost` adapter: a
`SocialPostingError` constructed with no `code` and no `details` — its only
distinguishing feature is the message text. -/
def instagramDeletePostErr : SErr :=
  ⟨"Instagram does not support deleting posts via API", none, none, true⟩

/-- Embedding of the Instagram `deletePost` adapter (src/platforms/instagram.ts
lines 226-228): unconditionally throws `instagramDeletePostErr`. -/
def instagramDeletePost : Except SErr Unit := .error instagramDeletePostErr

/-- Result of `deletePost` (src/types.ts `DeletePostResult`). -/
structure DeletePostResult where
  success : Bool
  error : Option String := none
  deriving Repr, DecidableEq

/-- Embedding of `SocialPostingClient.deletePost` (src/client.ts lines
609-648). `delOracle` is the outcome of the vendor delete call for the
channels whose adapters perform one (Facebook, LinkedIn, Threads). For
Instagram, the adapter throw is caught by the inner try/catch and returned as
a structured failure; the (unreachable, since the adapter always throws)
fall-through of the source's missing `return` lands on the final
"Unknown channel" result. -/
def deletePost (cfg : SocialPostingConfig) (channel : PlatformCode) (_postId : String)
    (delOracle : Except SErr Unit) : DeletePostResult :=
  match channel with
  | .f =>
    match cfg.meta with
    | none => ⟨false, some "Meta config missing"⟩
    | some m =>
      if m.pageAccessToken == "" then ⟨false, some "Meta config missing"⟩
      else
        match delOracle with
        | .ok _ => ⟨true, none⟩
        | .error e => ⟨false, some e.message⟩
  | .i =>
    match instagramDeletePost with
    | .error e => ⟨false, some e.message⟩
    | .ok _ => ⟨false, some "Unknown channel"⟩
  | .l =>
    match cfg.linkedin with
    | none => ⟨false, some "LinkedIn config missing"⟩
    | some lc =>
      if lc.accessToken == "" then ⟨false, some "LinkedIn config missing"⟩
      else
        match delOracle with
        | .ok _ => ⟨true, none⟩
        | .error e => ⟨false, some e.message⟩
  | .t =>
    match cfg.threads with
    | none => ⟨false, some "Threads config missing"⟩
    | some tc =>
      if tc.accessToken == "" then ⟨false, some "Threads config missing"⟩
      else
        match delOracle with
        | .ok _ => ⟨true, none⟩
        | .error e => ⟨false, some e.message⟩

/-- C9 (amended): deleting a post on the Instagram channel never raises and
always returns the structured failure `success = false` with the fixed error
message "Instagram does not support deleting posts via API" — for every
configuration, post id and network behaviour. The failure is distinguishable
only by that message text: neither the result nor the internally thrown error
carries a dedicated "unsupported operation" error kind. -/
theorem deletePost_instagram_amended :
    ∀ (cfg : SocialPostingConfig) (postId : String) (delOracle : Except SErr Unit),
      deletePost cfg PlatformCode.i postId delOracle =
        ⟨false, some "Instagram does not support deleting posts via API"⟩ := by
  intro cfg postId delOracle
  rfl

/-- C9 counterexample: the claimed "specific unsupported-operation error kind"
does not exist — the returned result is only `success = false` plus a message
string, and the `code` field of the internally thrown `SocialPostingError` is
`none`, indistinguishable from any other generic `SocialPostingError`. -/
theorem deletePost_instagram_no_error_kind_cx :
    deletePost {} PlatformCode.i "post1" (.ok ()) =
      ⟨false, some "Instagram does not support deleting posts via API"⟩ ∧
    instagramDeletePostErr.code = none := ⟨rfl, rfl⟩

end SocialApi
